import Mathlib

/-!
Verification development for the Swiss heavy-vehicle road-charge engine
(`flaskCarculator/swiss_cargo_costs.py`).

Conventions of the shallow embedding:
* Python `float` values are modelled as exact rationals (`ℚ`); `math.ceil`
  becomes `Int.ceil`, Python `round` (banker's rounding) becomes
  `roundHalfEven`, `int(...)` on a float becomes truncation toward zero.
* Python strings are `String` / `List Char`; the regular expressions used by
  the source are embedded as explicit character scanners whose backtracking
  behaviour coincides with the source patterns on every input (the patterns
  are deterministic: shrinking a greedy `\d+` group always leaves a digit in
  a position that the continuation rejects).
* `float(...)` string conversion is embedded for sign/digits/fraction/exponent
  forms; the exotic forms (`inf`, `nan`, digit-group underscores) that the
  engine never receives are not modelled and parse to `none`.
* Fallible code returns `Except`; each distinct `raise` site has its own
  error constructor.
-/

namespace SwissCargo

/-- Decimal digit as used by the source's `[0-9]` / `\d` character classes. -/
def isDigitC (c : Char) : Bool := 48 ≤ c.toNat && c.toNat ≤ 57

/-- ASCII whitespace stripped by Python `str.strip()` (post-ASCII-encode the
input contains no other whitespace). -/
def isPyWs (c : Char) : Bool :=
  c.toNat = 32 || c.toNat = 9 || c.toNat = 10 || c.toNat = 13 || c.toNat = 11 || c.toNat = 12

/-- Whitespace accepted by the regex class `\s` (ASCII part). -/
def isReWs (c : Char) : Bool := isPyWs c

/-- Python `str.strip()` on a character list. -/
def stripWs (l : List Char) : List Char :=
  ((l.dropWhile isPyWs).reverse.dropWhile isPyWs).reverse

/-- Python `str.lower()` on a character list. -/
def pyLowerL (l : List Char) : List Char := l.map Char.toLower

/-- Python `str.lower()` on a string. -/
def pyLower (s : String) : String := ⟨pyLowerL s.toList⟩

/-- Python `str.upper()` on a string. -/
def pyUpper (s : String) : String := ⟨s.toList.map Char.toUpper⟩

/-- Python `str.strip()` on a string. -/
def pyStrip (s : String) : String := ⟨stripWs s.toList⟩

/-- Python `sub in s` substring test. -/
def pyContains (s : String) (sub : String) : Bool := decide (sub.toList <:+: s.toList)

/-- Numeric value of a run of decimal digit characters (most significant first). -/
def digitsVal (l : List Char) : ℕ := l.foldl (fun a c => 10 * a + (c.toNat - 48)) 0

/-- Leading sign of a Python float literal, returned with the remaining text. -/
def splitSign (l : List Char) : ℚ × List Char :=
  match l with
  | [] => (1, [])
  | c :: r => if c = '+' then (1, r) else if c = '-' then (-1, r) else (1, c :: r)

/-- Leading sign of an exponent part, returned with the remaining text. -/
def splitSignZ (l : List Char) : ℤ × List Char :=
  match l with
  | [] => (1, [])
  | c :: r => if c = '+' then (1, r) else if c = '-' then (-1, r) else (1, c :: r)

/-- Python `float(str)` on sign/digits/fraction/exponent literals, `none` where
`float` raises `ValueError`. -/
def pyFloat (l0 : List Char) : Option ℚ :=
  let l1 := stripWs l0
  let s := splitSign l1
  let ip := s.2.takeWhile isDigitC
  let r1 := s.2.dropWhile isDigitC
  let core : Option (ℚ × List Char) :=
    match r1 with
    | '.' :: r2 =>
        let fp := r2.takeWhile isDigitC
        let r3 := r2.dropWhile isDigitC
        if ip.isEmpty && fp.isEmpty then none
        else some ((digitsVal ip : ℚ) + (digitsVal fp : ℚ) / 10 ^ fp.length, r3)
    | _ => if ip.isEmpty then none else some ((digitsVal ip : ℚ), r1)
  match core with
  | none => none
  | some (v, rest) =>
      match rest with
      | [] => some (s.1 * v)
      | c :: r4 =>
          if c = 'e' ∨ c = 'E' then
            let es := splitSignZ r4
            let ed := es.2.takeWhile isDigitC
            let r6 := es.2.dropWhile isDigitC
            if ed.isEmpty || !r6.isEmpty then none
            else some (s.1 * v * (10 : ℚ) ^ (es.1 * (digitsVal ed : ℤ)))
          else none

/-- Python `round` on an exact value: round half to even. -/
def roundHalfEven (q : ℚ) : ℤ :=
  let f : ℤ := ⌊q⌋
  let r : ℚ := q - f
  if r < 1 / 2 then f
  else if 1 / 2 < r then f + 1
  else if f % 2 = 0 then f else f + 1

/-- Python `round(q, n)` on an exact value. -/
def pyRound (n : ℕ) (q : ℚ) : ℚ := (roundHalfEven (q * 10 ^ n) : ℚ) / 10 ^ n

/-- Python `int(...)` on a float value: truncation toward zero. -/
def pyTrunc (q : ℚ) : ℤ := if q < 0 then -⌊-q⌋ else ⌊q⌋

/-- Python `range(a, b)` over integers. -/
def pyRange (a b : ℤ) : List ℤ := (List.range (b - a).toNat).map (fun (i : ℕ) => a + (i : ℤ))

/-- Scanner for `re.search`: try a matcher at each start position, left to right
(including the empty suffix). -/
def reSearch {α : Type} (m : List Char → Option α) : List Char → Option α
  | [] => m []
  | c :: cs =>
      match m (c :: cs) with
      | some v => some v
      | none => reSearch m cs

/-- Matcher for the regex group `\d+(?:\.\d+)?` anchored at the head: value of
the greedy match together with the remaining text, `none` if no digit starts
here.  Giving back characters from the greedy runs can never help the
continuations used in this module (a digit or a dot would be left in a
position where only `t`, `-` or end of pattern is accepted), so the greedy
result is the unique candidate. -/
def matchNum (l : List Char) : Option (ℚ × List Char) :=
  let ip := l.takeWhile isDigitC
  let r1 := l.dropWhile isDigitC
  if ip.isEmpty then none
  else
    match r1 with
    | '.' :: r2 =>
        let fp := r2.takeWhile isDigitC
        let r3 := r2.dropWhile isDigitC
        if fp.isEmpty then some ((digitsVal ip : ℚ), r1)
        else some ((digitsVal ip : ℚ) + (digitsVal fp : ℚ) / 10 ^ fp.length, r3)
    | _ => some ((digitsVal ip : ℚ), r1)

/-! ## Federal engine (`calculate_lsva_charge_period`) -/

/-- Tariff `CAT_I` (CHF per tonne-km), Euro 0–V. -/
def CAT_I : ℚ := 0.0326

/-- Tariff `CAT_II` (CHF per tonne-km), Euro VI/VII from 2029. -/
def CAT_II : ℚ := 0.0282

/-- Tariff `CAT_III` (CHF per tonne-km), Euro VI/VII until 2028, BEV/FCEV from 2029. -/
def CAT_III : ℚ := 0.0239

/-- Rebate schedule `bev_fcev_rebate` with the dictionary's `.get(y, 0.0)` default. -/
def bev_fcev_rebate (y : ℤ) : ℚ :=
  if y = 2029 then 0.7
  else if y = 2030 then 0.6
  else if y = 2031 then 0.5
  else if y = 2032 then 0.4
  else if y = 2033 then 0.3
  else if y = 2034 then 0.2
  else if y = 2035 then 0.1
  else 0

/-- Error sites of `calculate_lsva_charge_period`, one constructor per `raise`. -/
inductive FederalErr
  | invalidKm
  | invalidWindow
  | unparseableSize
  | nonPositiveTonnes
  | unsupportedPowertrain (pt : String)
deriving DecidableEq

/-- Rate selection `rate_chf_per_tkm_for_year` (closure over `pt` and
`modern_vi_vii` in the source, lifted to explicit parameters). -/
def rate_chf_per_tkm_for_year (pt : String) (modern_vi_vii : Bool) (y : ℤ) :
    Except FederalErr ℚ :=
  if pt = "BEV" ∨ pt = "FCEV" then
    if y ≤ 2028 then .ok 0
    else if 2029 ≤ y ∧ y ≤ 2035 then .ok (CAT_III * (1 - bev_fcev_rebate y))
    else .ok CAT_III
  else if modern_vi_vii ∧ (pt = "ICEV-d" ∨ pt = "ICEV-g" ∨ pt = "HEV-d" ∨ pt = "PHEV-d") then
    .ok (if y ≤ 2028 then CAT_III else CAT_II)
  else if pt = "ICEV-d" ∨ pt = "ICEV-g" ∨ pt = "HEV-d" ∨ pt = "PHEV-d" then
    .ok CAT_I
  else .error (.unsupportedPowertrain pt)

/-- One element of the federal `breakdown` list. -/
structure FederalEntry where
  year : ℤ
  km : ℚ
  tonnes : ℚ
  rate_chf_per_tkm : ℚ
  charge_chf : ℚ
deriving DecidableEq

/-- Return value of `calculate_lsva_charge_period`. -/
structure FederalResult where
  total_charge_chf : ℚ
  total_km : ℚ
  cost_per_km_chf : ℚ
  breakdown : List FederalEntry
deriving DecidableEq

/-- Per-year loop of the federal engine: builds the breakdown rows and the
accumulated total (addition reordered only up to commutativity, immaterial in
exact arithmetic). -/
def lsva_rows (pt : String) (modern : Bool) (tonnes km : ℚ) :
    List ℤ → Except FederalErr (List FederalEntry × ℚ)
  | [] => .ok ([], 0)
  | y :: ys =>
      match rate_chf_per_tkm_for_year pt modern y with
      | .error e => .error e
      | .ok rate =>
          match lsva_rows pt modern tonnes km ys with
          | .error e => .error e
          | .ok (rows, tot) =>
              .ok ({ year := y, km := km, tonnes := tonnes, rate_chf_per_tkm := rate,
                     charge_chf := rate * tonnes * km } :: rows,
                   rate * tonnes * km + tot)

/-- Matcher for the federal size regex `([0-9]+(?:\.[0-9]+)?)\s*t` anchored at
the head position. -/
def matchTonnesAt (l : List Char) : Option ℚ :=
  match matchNum l with
  | some (v, rest) =>
      match rest.dropWhile isReWs with
      | 't' :: _ => some v
      | _ => none
  | none => none

/-- Fields of `vehicle_data` read (or, for `euro_class`, merely carried) by the
federal entry point; `size` holds the string form `str(vehicle_data["size"])`. -/
structure FederalInput where
  powertrain : String
  size : String
  kilometers_per_year : ℚ
  purchase_year : ℤ
  resale_year : ℤ
  year : Option ℤ
  euro_class : Option String
deriving DecidableEq

/-- Federal entry point `calculate_lsva_charge_period`. -/
def calculate_lsva_charge_period (v : FederalInput) : Except FederalErr FederalResult :=
  let pt := pyStrip v.powertrain
  let size_str := pyLower (pyStrip v.size)
  let km_per_year := v.kilometers_per_year
  let purchase_year := v.purchase_year
  let resale_year := v.resale_year
  let manuf_year := v.year.getD purchase_year
  if km_per_year ≤ 0 then .error .invalidKm
  else if resale_year ≤ purchase_year then .error .invalidWindow
  else
    match reSearch matchTonnesAt size_str.toList with
    | none => .error .unparseableSize
    | some tonnes =>
        if tonnes ≤ 0 then .error .nonPositiveTonnes
        else
          let modern_vi_vii := decide (2014 ≤ manuf_year)
          let years := pyRange purchase_year resale_year
          let total_km := km_per_year * (years.length : ℚ)
          match lsva_rows pt modern_vi_vii tonnes km_per_year years with
          | .error e => .error e
          | .ok (rows, total_charge) =>
              .ok { total_charge_chf := total_charge
                    total_km := total_km
                    cost_per_km_chf := if 0 < total_km then total_charge / total_km else 0
                    breakdown := rows }

/-! ## Cantonal engine (`canton_truck_tax` and helpers) -/

/-- Unicode NFKD decomposition followed by ASCII-`encode(..., "ignore")`,
tabulated character-wise for the Latin-1 letters (a diacritic letter
decomposes into its base letter plus combining marks, which the ASCII encode
drops); every other non-ASCII character has no ASCII-compatible
decomposition and is dropped. -/
def nfkd_ascii_char (c : Char) : List Char :=
  if c.toNat < 128 then [c]
  else
    match c with
    | 'à' | 'á' | 'â' | 'ã' | 'ä' | 'å' => ['a']
    | 'è' | 'é' | 'ê' | 'ë' => ['e']
    | 'ì' | 'í' | 'î' | 'ï' => ['i']
    | 'ò' | 'ó' | 'ô' | 'õ' | 'ö' => ['o']
    | 'ù' | 'ú' | 'û' | 'ü' => ['u']
    | 'ý' | 'ÿ' => ['y']
    | 'ç' => ['c']
    | 'ñ' => ['n']
    | 'À' | 'Á' | 'Â' | 'Ã' | 'Ä' | 'Å' => ['A']
    | 'È' | 'É' | 'Ê' | 'Ë' => ['E']
    | 'Ì' | 'Í' | 'Î' | 'Ï' => ['I']
    | 'Ò' | 'Ó' | 'Ô' | 'Õ' | 'Ö' => ['O']
    | 'Ù' | 'Ú' | 'Û' | 'Ü' => ['U']
    | 'Ý' => ['Y']
    | 'Ç' => ['C']
    | 'Ñ' => ['N']
    | _ => []

/-- Canton name normalisation `_normalize_canton`: NFKD + ASCII-ignore, then
`strip()`, then `lower()`. -/
def _normalize_canton (s : String) : String :=
  ⟨pyLowerL (stripWs ((s.toList.map nfkd_ascii_char).flatten))⟩

/-- Weight value as stored in `vehicle_data["size"]`: a Python number or a
string (the `isinstance` test in `_parse_tonnes` distinguishes them). -/
inductive SizeVal
  | num (q : ℚ)
  | str (s : String)
deriving DecidableEq

/-- Weight parser `_parse_tonnes`: numbers pass through; strings are lowered,
space-stripped, deprived of a trailing `t`, comma mapped to dot, then fed to
`float(...)`. -/
def _parse_tonnes : Option SizeVal → Option ℚ
  | none => none
  | some (.num q) => some q
  | some (.str s) =>
      let l := (pyLowerL s.toList).filter (fun c => c ≠ ' ')
      let l := if l.getLast? = some 't' then l.dropLast else l
      pyFloat (l.map (fun c => if c = ',' then '.' else c))

/-- Inclusive ownership-window length `_years_owned_inclusive`. -/
def _years_owned_inclusive (purchase_year resale_year : ℤ) : ℤ :=
  resale_year - purchase_year + 1

/-- Euro-class inference `_infer_euro_truck`: a supplied truthy class wins,
otherwise Euro 6 from manufacture year 2014 on, Euro 5 before. -/
def _infer_euro_truck (year : ℤ) (euro_class : Option String) : String :=
  match euro_class with
  | some e => if e = "" then (if 2014 ≤ year then "Euro 6" else "Euro 5") else e
  | none => if 2014 ≤ year then "Euro 6" else "Euro 5"

/-- Matcher for `=(\d+(?:\.\d+)?)t` anchored at the head position. -/
def matchEqBandAt (l : List Char) : Option ℚ :=
  match l with
  | '=' :: r =>
      match matchNum r with
      | some (v, 't' :: _) => some v
      | _ => none
  | _ => none

/-- Matcher for `>(\d+(?:\.\d+)?)(?:t)?-(\d+(?:\.\d+)?)t` anchored at the head
position. -/
def matchRangeBandAt (l : List Char) : Option (ℚ × ℚ) :=
  match l with
  | '>' :: r =>
      match matchNum r with
      | some (v1, rest1) =>
          let rest2 : Option (List Char) :=
            match rest1 with
            | 't' :: '-' :: r2 => some r2
            | '-' :: r2 => some r2
            | _ => none
          match rest2 with
          | some r2 =>
              match matchNum r2 with
              | some (v2, 't' :: _) => some (v1, v2)
              | _ => none
          | none => none
      | none => none
  | _ => none

/-- Matcher for `>(\d+(?:\.\d+)?)t$` anchored at the head position. -/
def matchOpenBandAt (l : List Char) : Option ℚ :=
  match l with
  | '>' :: r =>
      match matchNum r with
      | some (v, 't' :: rest) => if rest.isEmpty then some v else none
      | _ => none
  | _ => none

/-- Class-band parser `_parse_original_class` (renamed: the source name ends in
a reserved word). -/
def parse_original_class_name (original : String) : Option (String × ℚ × Option ℚ) :=
  if original = "" then none
  else
    let s := ((pyLowerL (stripWs original.toList)).filter (fun c => c ≠ ' ')).map
      (fun c => if c = ',' then '.' else c)
    let vehicle_type : Option String :=
      if "lz/sz".toList.isPrefixOf s ∨ "lzsz".toList.isPrefixOf s then some "articulated"
      else if "lkw".toList.isPrefixOf s then some "rigid"
      else none
    match vehicle_type with
    | none => none
    | some vt =>
        match reSearch matchEqBandAt s with
        | some v => some (vt, v, some v)
        | none =>
            match reSearch matchRangeBandAt s with
            | some (lo, hi) => some (vt, lo, some hi)
            | none =>
                match reSearch matchOpenBandAt s with
                | some v => some (vt, v, none)
                | none => none

/-- Band-to-tonnage resolution `_tonnes_from_band`.  In the source a missing
lower bound combined with a non-`upper` strategy would raise `TypeError`; that
call shape is unreachable (the band parser always supplies a lower bound) and
is modelled as `none`. -/
def _tonnes_from_band (min_t max_t : Option ℚ) (strategy : String) : Option ℚ :=
  match min_t, max_t with
  | none, none => none
  | some mn, none => some mn
  | mn, some mx =>
      if strategy = "upper" then some mx
      else if strategy = "lower" then mn
      else mn.map (fun m => (m + mx) / 2)

/-- Zurich annual formula `_zurich_annual`. -/
def _zurich_annual (weight_kg : ℤ) (euro : Option String) (powertrain : String) : ℚ :=
  let base : ℚ :=
    254 + (if 4000 < weight_kg then 35 * ((⌈((weight_kg : ℚ) - 4000) / 500⌉ : ℤ) : ℚ) else 0)
  let surcharge : ℚ :=
    if pyUpper powertrain = "BEV" ∨ pyUpper powertrain = "FCEV" then 300
    else
      let e := pyLower (euro.getD "")
      if pyContains e "6" ∨ pyContains e "vii" ∨ pyContains e "7" then 300 else 900
  base + surcharge

/-- Geneva weight brackets. -/
def geneva_brackets : List (ℤ × ℚ) :=
  [(4000, 651), (4500, 716), (5000, 781), (5500, 846),
   (6000, 911), (6500, 976), (7000, 1041), (7500, 1106),
   (8000, 1171), (8500, 1236), (9000, 1301), (9500, 1366),
   (10000, 1431), (10500, 1496), (11000, 1561), (11500, 1626),
   (12000, 1691), (12500, 1756), (13000, 1821)]

/-- Geneva annual formula `_geneva_annual` (bracket lookup is total on the
guarded range, so the `next(...)` generator never exhausts). -/
def _geneva_annual (weight_kg : ℤ) (year : ℤ) (powertrain : String) : ℚ :=
  let amt : ℚ :=
    if weight_kg ≤ 3500 then 350.5
    else if 13000 < weight_kg then 1837
    else
      match geneva_brackets.find? (fun p => decide (weight_kg ≤ p.1)) with
      | some p => p.2
      | none => 0
  if (pyUpper powertrain = "BEV" ∨ pyUpper powertrain = "FCEV") ∧ 2025 ≤ year then amt * 0.5
  else amt

/-- Vaud annual formula `_vaud_annual`. -/
def _vaud_annual (weight_kg : ℤ) (powertrain : String) (euro : Option String) : ℚ :=
  let amt : ℚ :=
    450 + (if 4000 < weight_kg then 78 * ((⌈((weight_kg : ℚ) - 4000) / 1000⌉ : ℤ) : ℚ) else 0)
  if pyUpper powertrain = "BEV" then amt * 0.10
  else
    let e := pyLower (euro.getD "")
    amt * (if pyContains e "6" ∨ pyContains e "vii" ∨ pyContains e "7" then 0.65 else 1)

/-- Ticino annual formula `_ticino_annual`. -/
def _ticino_annual (power_kw : ℚ) : ℚ := 105 + 10 * power_kw

/-- Graubünden secondary-category tariff `_gr_cat2`. -/
def _gr_cat2 (weight_kg : ℤ) : ℚ :=
  let amt : ℚ := 450.5
  let amt :=
    if 2000 < weight_kg then
      amt + 15.1 * ((⌈(((min 16000 weight_kg : ℤ) : ℚ) - 2000) / 100⌉ : ℤ) : ℚ)
    else amt
  if 16000 < weight_kg then amt + 11.3 * ((⌈((weight_kg : ℚ) - 16000) / 100⌉ : ℤ) : ℚ)
  else amt

/-- Graubünden annual formula `_graubuenden_annual`. -/
def _graubuenden_annual (weight_kg : ℤ) (powertrain : String) : ℚ :=
  if pyUpper powertrain = "BEV" ∨ pyUpper powertrain = "HEV-D" ∨ pyUpper powertrain = "PHEV-D"
  then 0.20 * _gr_cat2 weight_kg
  else
    let amt : ℚ := 595.8
    if 3500 < weight_kg then
      let add1 : ℤ := min weight_kg 6500 - 3500
      let amt := if 0 < add1 then amt + 12 * ((⌈(add1 : ℚ) / 100⌉ : ℤ) : ℚ) else amt
      let amt :=
        if 6500 < weight_kg then
          amt + 9.3 * ((⌈(((min weight_kg 16000 : ℤ) : ℚ) - 6500) / 100⌉ : ℤ) : ℚ)
        else amt
      if 16000 < weight_kg then amt + 8.5 * ((⌈((weight_kg : ℚ) - 16000) / 100⌉ : ℤ) : ℚ)
      else amt
    else amt

/-- Valais annual formula `_valais_annual`. -/
def _valais_annual (weight_kg : ℤ) : ℚ :=
  if weight_kg ≤ 4000 then 400
  else if weight_kg ≤ 15000 then 400 + 57.5 * ((⌈((weight_kg : ℚ) - 4000) / 1000⌉ : ℤ) : ℚ)
  else if weight_kg ≤ 23000 then 1500
  else if weight_kg ≤ 32000 then 1750
  else 2000

/-- Loop body of Bern's `_geometric_sum`: `n` iterations of
`total += rate; rate *= (1 - 0.14)`. -/
def bern_geom_loop : ℕ → ℚ → ℚ → ℚ × ℚ
  | 0, total, rate => (total, rate)
  | n + 1, total, rate => bern_geom_loop n (total + rate) (rate * (1 - 0.14))

/-- Bern's `_geometric_sum` over full 1000-kg blocks plus a pro-rata remainder. -/
def bern_geometric_sum (kg : ℤ) (first_1000_rate : ℚ) : ℚ :=
  if kg ≤ 0 then 0
  else
    let full_tonnes_after : ℤ := max 0 (Int.fdiv (kg - 1000) 1000)
    let rem_kg : ℤ := max 0 (Int.fmod (kg - 1000) 1000)
    let st := bern_geom_loop full_tonnes_after.toNat first_1000_rate
      (first_1000_rate * (1 - 0.14))
    if 0 < rem_kg then st.1 + st.2 * ((rem_kg : ℚ) / 1000) else st.1

/-- Bern annual formula `_bern_annual`. -/
def _bern_annual (weight_kg : ℤ) (powertrain : String) (first_reg_year this_year : ℤ) : ℚ :=
  if pyUpper powertrain = "BEV" then
    let base := bern_geometric_sum weight_kg 120
    if first_reg_year ≤ this_year ∧ this_year ≤ first_reg_year + 3 then base * 0.40 else base
  else bern_geometric_sum weight_kg 240

/-- Basel-Landschaft annual formula `_baselland_annual`. -/
def _baselland_annual (weight_kg : ℤ) : ℚ := 0.121446 * (weight_kg : ℚ)

/-- Fribourg 2025 heavy-vehicle table. -/
def fribourg_tbl : List (ℤ × ℚ) :=
  [(7500, 1140), (14000, 1666), (20000, 2192), (26000, 2718), (32000, 3244),
   (1000000000, 3770)]

/-- Fribourg annual formula `_fribourg_annual`. -/
def _fribourg_annual (weight_kg : ℤ) : ℚ :=
  if weight_kg ≤ 3500 then 0
  else
    match fribourg_tbl.find? (fun p => decide (weight_kg ≤ p.1)) with
    | some p => p.2
    | none => 3770

/-- Error sites of the cantonal engine, one constructor per `raise`. -/
inductive CantonErr
  | unparseableWeight
  | unsupportedCanton (raw : String)
  | missingPower
  | missingCargoMass
  | agPayloadTooSmall
deriving DecidableEq

/-- Aargau payload bands. -/
def aargau_bands : List (ℤ × ℚ) :=
  [(1500, 348), (2000, 420), (2500, 492), (3000, 564),
   (3500, 636), (4000, 708), (4500, 780), (5000, 852),
   (5500, 936), (6000, 1020), (6500, 1104), (7000, 1188),
   (7500, 1272), (8000, 1356), (8500, 1440), (9000, 1524),
   (9500, 1608)]

/-- Aargau annual formula `_aargau_annual`; payload below 1000 kg raises. -/
def _aargau_annual (payload_kg : ℤ) : Except CantonErr ℚ :=
  if payload_kg < 1000 then .error .agPayloadTooSmall
  else
    match aargau_bands.find? (fun p => decide (payload_kg ≤ p.1)) with
    | some p => .ok p.2
    | none => .ok (1608 + ((⌈((payload_kg : ℚ) - 9500) / 500⌉ : ℤ) : ℚ) * 84)

/-- Alias spellings accepted for each canton by the dispatch chain. -/
def zh_aliases : List String := ["zh", "zuerich", "zurich", "zurich city"]

/-- Geneva alias spellings. -/
def ge_aliases : List String := ["ge", "geneve", "geneva"]

/-- Vaud alias spellings. -/
def vd_aliases : List String := ["vd", "vaud"]

/-- Ticino alias spellings. -/
def ti_aliases : List String := ["ti", "ticino"]

/-- Graubünden alias spellings. -/
def gr_aliases : List String := ["gr", "graubunden", "graubuenden"]

/-- Valais alias spellings. -/
def vs_aliases : List String := ["vs", "valais"]

/-- Bern alias spellings. -/
def be_aliases : List String := ["be", "bern", "berne"]

/-- Basel-Landschaft alias spellings. -/
def bl_aliases : List String := ["bl", "baselland", "basel-landschaft", "basel landschaft"]

/-- Fribourg alias spellings. -/
def fr_aliases : List String := ["fr", "fribourg", "freiburg"]

/-- Aargau alias spellings. -/
def ag_aliases : List String := ["ag", "aargau"]

/-- Every alias string the dispatch chain recognises. -/
def all_canton_aliases : List String :=
  zh_aliases ++ ge_aliases ++ vd_aliases ++ ti_aliases ++ gr_aliases ++ vs_aliases ++
    be_aliases ++ bl_aliases ++ fr_aliases ++ ag_aliases

/-- Fields of `vehicle_data` read by the cantonal entry point. -/
structure CantonInput where
  canton : String
  powertrain : String
  year : ℤ
  euro_class : Option String
  purchase_year : ℤ
  resale_year : ℤ
  kilometers_per_year : ℚ
  size : Option SizeVal
  original_class_name : Option String
  power : Option ℚ
  cargo_mass : Option ℤ
  first_registration_year : Option ℤ
deriving DecidableEq

/-- One element of the optional cantonal `per_year` list. -/
structure PerYearEntry where
  year : ℤ
  annual_tax_chf : ℚ
deriving DecidableEq

/-- Return value of `canton_truck_tax`. -/
structure CantonResult where
  canton : String
  vehicle_type_inferred : Option String
  tonnes_used : Option ℚ
  weight_source : Option String
  annual_tax_chf : ℚ
  years : ℤ
  total_tax_chf : ℚ
  total_km : ℤ
  chf_per_km : ℚ
  per_year : Option (List PerYearEntry)
  notes : List String
deriving DecidableEq

/-- Weight resolution of `canton_truck_tax` (source lines 383-393): an explicit
`size` wins; otherwise the class-band descriptor is parsed and estimated.
Returns the tonnage, the inferred vehicle type, and the `weight_source` tag. -/
def resolve_weight (v : CantonInput) (band_estimation : String) :
    Option (ℚ × Option String × String) :=
  match _parse_tonnes v.size with
  | some t => some (t, none, "size")
  | none =>
      match parse_original_class_name (v.original_class_name.getD "") with
      | some (vt, lo, hi) =>
          match _tonnes_from_band (some lo) hi band_estimation with
          | some t => some (t, some vt, "original class name")
          | none => none
      | none => none

/-- Aargau branch of the dispatch chain: `cargo mass` is mandatory and
forwarded to `_aargau_annual`. -/
def aargau_branch (v : CantonInput) :
    Except CantonErr (ℚ × Option (List PerYearEntry) × List String) :=
  match v.cargo_mass with
  | none => .error .missingCargoMass
  | some m =>
      (_aargau_annual m).map
        (fun a => (a, none, ["Aargau: trucks taxed by payload (Nutzlast) bands."]))

/-- Dispatch chain of `canton_truck_tax` (source lines 402-461): selects the
jurisdiction formula, producing the annual amount, the optional per-year list
and the branch notes.  The missing-weight check of line 397 precedes the
dispatch, so an unresolved weight only reaches the Aargau branch. -/
def canton_dispatch (v : CantonInput) (canton pt euro : String) (made_year y0 y1 years : ℤ)
    (resolved : Option (ℚ × Option String × String)) :
    Except CantonErr (ℚ × Option (List PerYearEntry) × List String) :=
  match resolved with
  | none =>
      if canton ∈ ag_aliases then aargau_branch v
      else .error .unparseableWeight
  | some res =>
      let weight_kg : ℤ := roundHalfEven (res.1 * 1000)
      if canton ∈ zh_aliases then
        .ok (_zurich_annual weight_kg (some euro) pt, none, [])
      else if canton ∈ ge_aliases then
        let yrs := pyRange y0 (y1 + 1)
        let entries := yrs.map
          (fun yr => PerYearEntry.mk yr (pyRound 2 (_geneva_annual weight_kg yr pt)))
        let total := (yrs.map (fun yr => _geneva_annual weight_kg yr pt)).sum
        .ok (if years ≠ 0 then total / (years : ℚ) else 0,
             if entries.isEmpty then none else some entries,
             ["Genève: −50% for BEV/FCEV from 2025 applied year-by-year."])
      else if canton ∈ vd_aliases then
        .ok (_vaud_annual weight_kg pt (some euro), none, [])
      else if canton ∈ ti_aliases then
        match v.power with
        | none => .error .missingPower
        | some kw => .ok (_ticino_annual kw, none, ["Ticino formula: CHF 105 + 10 × kW."])
      else if canton ∈ gr_aliases then
        .ok (_graubuenden_annual weight_kg pt, none,
             ["Graubünden: EV/(H)EV trucks pay 20% of Category-2 weight tariff."])
      else if canton ∈ vs_aliases then
        .ok (_valais_annual weight_kg, none, [])
      else if canton ∈ be_aliases then
        let first_reg := v.first_registration_year.getD made_year
        let yrs := pyRange y0 (y1 + 1)
        let entries := yrs.map
          (fun yr => PerYearEntry.mk yr (pyRound 2 (_bern_annual weight_kg pt first_reg yr)))
        let total := (yrs.map (fun yr => _bern_annual weight_kg pt first_reg yr)).sum
        .ok (if years ≠ 0 then total / (years : ℚ) else 0,
             if entries.isEmpty then none else some entries,
             ["Bern: geometric weight tariff (−14% per extra tonne); BEV −60% for first 4 reg. years."])
      else if canton ∈ bl_aliases then
        .ok (_baselland_annual weight_kg, none,
             ["Basel-Landschaft: Lastwagen CHF/kg weight rate (variable tax table)."])
      else if canton ∈ fr_aliases then
        .ok (_fribourg_annual weight_kg, none,
             ["Fribourg: heavy-vehicle fixed weight brackets (2025 tariff)."])
      else if canton ∈ ag_aliases then aargau_branch v
      else .error (.unsupportedCanton v.canton)

/-- Cantonal entry point `canton_truck_tax`. -/
def canton_truck_tax (v : CantonInput) (band_estimation : String) :
    Except CantonErr CantonResult :=
  let canton := _normalize_canton v.canton
  let pt := pyStrip v.powertrain
  let made_year := v.year
  let euro := _infer_euro_truck made_year v.euro_class
  let y0 := v.purchase_year
  let y1 := v.resale_year
  let km_per_year := v.kilometers_per_year
  let years := _years_owned_inclusive y0 y1
  let total_km : ℚ := km_per_year * (years : ℚ)
  let resolved := resolve_weight v band_estimation
  (canton_dispatch v canton pt euro made_year y0 y1 years resolved).map fun res =>
    let annual := res.1
    let total_tax := annual * (years : ℚ)
    { canton := v.canton
      vehicle_type_inferred := resolved.bind (fun x => x.2.1)
      tonnes_used := resolved.map (fun x => pyRound 3 x.1)
      weight_source := resolved.map (fun x => x.2.2)
      annual_tax_chf := pyRound 2 annual
      years := years
      total_tax_chf := pyRound 2 total_tax
      total_km := pyTrunc total_km
      chf_per_km := pyRound 6 (if 0 < total_km then total_tax / total_km else 0)
      per_year := res.2.1
      notes := res.2.2 ++
        ["Euro class: " ++ _infer_euro_truck made_year v.euro_class ++
           " (manufacture year " ++ toString made_year ++ ").",
         "Ownership window treated as calendar-year inclusive."] }

/-! ## General lemmas about the engines -/

/-- Inversion for `Except.map` hitting `ok`. -/
lemma except_map_ok {ε α β : Type} {f : α → β} {x : Except ε α} {b : β}
    (h : x.map f = .ok b) : ∃ a, x = .ok a ∧ b = f a := by
  cases x with
  | error e => simp [Except.map] at h
  | ok a => refine ⟨a, rfl, ?_⟩; simpa [Except.map] using h.symm

/-- The federal per-year loop accumulates exactly the sum of the row charges. -/
lemma lsva_rows_sum (pt : String) (m : Bool) (t km : ℚ) :
    ∀ (ys : List ℤ) (rows : List FederalEntry) (tot : ℚ),
      lsva_rows pt m t km ys = .ok (rows, tot) →
      tot = (rows.map (fun e => e.charge_chf)).sum := by
  intro ys
  induction ys with
  | nil =>
      intro rows tot h
      simp only [lsva_rows] at h
      obtain ⟨h1, h2⟩ := Prod.mk.injEq .. ▸ (Except.ok.injEq .. ▸ h)
      simp [← h1, ← h2]
  | cons y ys ih =>
      intro rows tot h
      simp only [lsva_rows] at h
      cases hr : rate_chf_per_tkm_for_year pt m y with
      | error e => rw [hr] at h; simp at h
      | ok rate =>
          rw [hr] at h
          cases hrec : lsva_rows pt m t km ys with
          | error e => rw [hrec] at h; simp at h
          | ok pr =>
              obtain ⟨rows', tot'⟩ := pr
              rw [hrec] at h
              simp only [Except.ok.injEq, Prod.mk.injEq] at h
              obtain ⟨hrows, htot⟩ := h
              subst hrows
              subst htot
              simp [ih rows' tot' hrec]

/-- The federal per-year loop visits exactly the supplied years, in order. -/
lemma lsva_rows_years (pt : String) (m : Bool) (t km : ℚ) :
    ∀ (ys : List ℤ) (rows : List FederalEntry) (tot : ℚ),
      lsva_rows pt m t km ys = .ok (rows, tot) →
      rows.map (fun e => e.year) = ys := by
  intro ys
  induction ys with
  | nil =>
      intro rows tot h
      simp only [lsva_rows] at h
      obtain ⟨h1, h2⟩ := Prod.mk.injEq .. ▸ (Except.ok.injEq .. ▸ h)
      simp [← h1]
  | cons y ys ih =>
      intro rows tot h
      simp only [lsva_rows] at h
      cases hr : rate_chf_per_tkm_for_year pt m y with
      | error e => rw [hr] at h; simp at h
      | ok rate =>
          rw [hr] at h
          cases hrec : lsva_rows pt m t km ys with
          | error e => rw [hrec] at h; simp at h
          | ok pr =>
              obtain ⟨rows', tot'⟩ := pr
              rw [hrec] at h
              simp only [Except.ok.injEq, Prod.mk.injEq] at h
              obtain ⟨hrows, htot⟩ := h
              subst hrows
              simp [ih rows' tot' hrec]

/-- Every row of the federal loop carries the rate selected for its year. -/
lemma lsva_rows_rates (pt : String) (m : Bool) (t km : ℚ) :
    ∀ (ys : List ℤ) (rows : List FederalEntry) (tot : ℚ),
      lsva_rows pt m t km ys = .ok (rows, tot) →
      ∀ e ∈ rows, rate_chf_per_tkm_for_year pt m e.year = .ok e.rate_chf_per_tkm := by
  intro ys
  induction ys with
  | nil =>
      intro rows tot h
      simp only [lsva_rows] at h
      obtain ⟨h1, h2⟩ := Prod.mk.injEq .. ▸ (Except.ok.injEq .. ▸ h)
      intro e he
      rw [← h1] at he
      simp at he
  | cons y ys ih =>
      intro rows tot h
      simp only [lsva_rows] at h
      cases hr : rate_chf_per_tkm_for_year pt m y with
      | error e => rw [hr] at h; simp at h
      | ok rate =>
          rw [hr] at h
          cases hrec : lsva_rows pt m t km ys with
          | error e => rw [hrec] at h; simp at h
          | ok pr =>
              obtain ⟨rows', tot'⟩ := pr
              rw [hrec] at h
              simp only [Except.ok.injEq, Prod.mk.injEq] at h
              obtain ⟨hrows, htot⟩ := h
              subst hrows
              intro e he
              rcases List.mem_cons.mp he with h0 | h0
              · subst h0; simpa using hr
              · exact ih rows' tot' hrec e h0

/-- Inversion of a successful federal run into its loop data. -/
lemma calculate_ok_inv {v : FederalInput} {r : FederalResult}
    (h : calculate_lsva_charge_period v = .ok r) :
    ∃ tonnes rows tot,
      lsva_rows (pyStrip v.powertrain) (decide (2014 ≤ v.year.getD v.purchase_year)) tonnes
          v.kilometers_per_year (pyRange v.purchase_year v.resale_year) = .ok (rows, tot) ∧
      r.breakdown = rows ∧ r.total_charge_chf = tot := by
  simp only [calculate_lsva_charge_period] at h
  split at h
  · exact absurd h (by simp)
  · split at h
    · exact absurd h (by simp)
    · split at h
      · exact absurd h (by simp)
      · next tonnes heq =>
          split at h
          · exact absurd h (by simp)
          · split at h
            · exact absurd h (by simp)
            · next rows tot hrows =>
                refine ⟨tonnes, rows, tot, hrows, ?_, ?_⟩ <;>
                  (obtain ⟨rfl⟩ := h; rfl)

/-- Numeric value of the character `0` (Rat arithmetic does not kernel-reduce,
so concrete engine runs are evaluated by `simp`/`norm_num`; these little
lemmas let them resolve digit characters). -/
lemma toNat_d0 : '0'.toNat = 48 := by decide

/-- Numeric value of the character `1`. -/
lemma toNat_d1 : '1'.toNat = 49 := by decide

/-- Numeric value of the character `2`. -/
lemma toNat_d2 : '2'.toNat = 50 := by decide

/-- Numeric value of the character `3`. -/
lemma toNat_d3 : '3'.toNat = 51 := by decide

/-- Numeric value of the character `4`. -/
lemma toNat_d4 : '4'.toNat = 52 := by decide

/-- Numeric value of the character `5`. -/
lemma toNat_d5 : '5'.toNat = 53 := by decide

/-- Numeric value of the character `6`. -/
lemma toNat_d6 : '6'.toNat = 54 := by decide

/-- Numeric value of the character `7`. -/
lemma toNat_d7 : '7'.toNat = 55 := by decide

/-- Numeric value of the character `8`. -/
lemma toNat_d8 : '8'.toNat = 56 := by decide

/-- Numeric value of the character `9`. -/
lemma toNat_d9 : '9'.toNat = 57 := by decide

/-- Evaluation table for `Char.toLower` on the ASCII characters handled by this
module (uppercase letters map to lowercase, everything else used here is
fixed); stated as equations so `simp` can rewrite concrete runs. -/
lemma toLower_eval :
    ('A'.toLower = 'a' ∧ 'B'.toLower = 'b' ∧ 'C'.toLower = 'c' ∧ 'D'.toLower = 'd' ∧
     'E'.toLower = 'e' ∧ 'F'.toLower = 'f' ∧ 'G'.toLower = 'g' ∧ 'H'.toLower = 'h' ∧
     'I'.toLower = 'i' ∧ 'J'.toLower = 'j' ∧ 'K'.toLower = 'k' ∧ 'L'.toLower = 'l' ∧
     'M'.toLower = 'm' ∧ 'N'.toLower = 'n' ∧ 'O'.toLower = 'o' ∧ 'P'.toLower = 'p' ∧
     'Q'.toLower = 'q' ∧ 'R'.toLower = 'r' ∧ 'S'.toLower = 's' ∧ 'T'.toLower = 't' ∧
     'U'.toLower = 'u' ∧ 'V'.toLower = 'v' ∧ 'W'.toLower = 'w' ∧ 'X'.toLower = 'x' ∧
     'Y'.toLower = 'y' ∧ 'Z'.toLower = 'z') ∧
    ('a'.toLower = 'a' ∧ 'b'.toLower = 'b' ∧ 'c'.toLower = 'c' ∧ 'd'.toLower = 'd' ∧
     'e'.toLower = 'e' ∧ 'f'.toLower = 'f' ∧ 'g'.toLower = 'g' ∧ 'h'.toLower = 'h' ∧
     'i'.toLower = 'i' ∧ 'j'.toLower = 'j' ∧ 'k'.toLower = 'k' ∧ 'l'.toLower = 'l' ∧
     'm'.toLower = 'm' ∧ 'n'.toLower = 'n' ∧ 'o'.toLower = 'o' ∧ 'p'.toLower = 'p' ∧
     'q'.toLower = 'q' ∧ 'r'.toLower = 'r' ∧ 's'.toLower = 's' ∧ 't'.toLower = 't' ∧
     'u'.toLower = 'u' ∧ 'v'.toLower = 'v' ∧ 'w'.toLower = 'w' ∧ 'x'.toLower = 'x' ∧
     'y'.toLower = 'y' ∧ 'z'.toLower = 'z') ∧
    ('0'.toLower = '0' ∧ '1'.toLower = '1' ∧ '2'.toLower = '2' ∧ '3'.toLower = '3' ∧
     '4'.toLower = '4' ∧ '5'.toLower = '5' ∧ '6'.toLower = '6' ∧ '7'.toLower = '7' ∧
     '8'.toLower = '8' ∧ '9'.toLower = '9') ∧
    (' '.toLower = ' ' ∧ '-'.toLower = '-' ∧ ','.toLower = ',' ∧ '.'.toLower = '.' ∧
     '/'.toLower = '/' ∧ '>'.toLower = '>' ∧ '='.toLower = '=') := by
  repeat' apply And.intro
  all_goals decide

/-- Evaluation table for `Char.toUpper` on the ASCII characters handled by this
module. -/
lemma toUpper_eval :
    ('a'.toUpper = 'A' ∧ 'b'.toUpper = 'B' ∧ 'c'.toUpper = 'C' ∧ 'd'.toUpper = 'D' ∧
     'e'.toUpper = 'E' ∧ 'f'.toUpper = 'F' ∧ 'g'.toUpper = 'G' ∧ 'h'.toUpper = 'H' ∧
     'i'.toUpper = 'I' ∧ 'j'.toUpper = 'J' ∧ 'k'.toUpper = 'K' ∧ 'l'.toUpper = 'L' ∧
     'm'.toUpper = 'M' ∧ 'n'.toUpper = 'N' ∧ 'o'.toUpper = 'O' ∧ 'p'.toUpper = 'P' ∧
     'q'.toUpper = 'Q' ∧ 'r'.toUpper = 'R' ∧ 's'.toUpper = 'S' ∧ 't'.toUpper = 'T' ∧
     'u'.toUpper = 'U' ∧ 'v'.toUpper = 'V' ∧ 'w'.toUpper = 'W' ∧ 'x'.toUpper = 'X' ∧
     'y'.toUpper = 'Y' ∧ 'z'.toUpper = 'Z') ∧
    ('A'.toUpper = 'A' ∧ 'B'.toUpper = 'B' ∧ 'C'.toUpper = 'C' ∧ 'D'.toUpper = 'D' ∧
     'E'.toUpper = 'E' ∧ 'F'.toUpper = 'F' ∧ 'G'.toUpper = 'G' ∧ 'H'.toUpper = 'H' ∧
     'I'.toUpper = 'I' ∧ 'J'.toUpper = 'J' ∧ 'K'.toUpper = 'K' ∧ 'L'.toUpper = 'L' ∧
     'M'.toUpper = 'M' ∧ 'N'.toUpper = 'N' ∧ 'O'.toUpper = 'O' ∧ 'P'.toUpper = 'P' ∧
     'Q'.toUpper = 'Q' ∧ 'R'.toUpper = 'R' ∧ 'S'.toUpper = 'S' ∧ 'T'.toUpper = 'T' ∧
     'U'.toUpper = 'U' ∧ 'V'.toUpper = 'V' ∧ 'W'.toUpper = 'W' ∧ 'X'.toUpper = 'X' ∧
     'Y'.toUpper = 'Y' ∧ 'Z'.toUpper = 'Z') ∧
    ('-'.toUpper = '-' ∧ ' '.toUpper = ' ') := by
  repeat' apply And.intro
  all_goals decide

/-- Rate selection for zero-emission powertrains, in closed piecewise-linear
form: the tabulated rebate equals `0.7 - (y - 2029)/10` on 2029-2035. -/
lemma rate_bev_fcev (pt : String) (m : Bool) (y : ℤ)
    (hpt : pt = "BEV" ∨ pt = "FCEV") :
    rate_chf_per_tkm_for_year pt m y =
      .ok (if y ≤ 2028 then 0
           else if y ≤ 2035 then CAT_III * (1 - (7 / 10 - ((y : ℚ) - 2029) / 10))
           else CAT_III) := by
  have hcond : pt = "BEV" ∨ pt = "FCEV" := hpt
  simp only [rate_chf_per_tkm_for_year, if_pos hcond]
  by_cases h1 : y ≤ 2028
  · simp [h1]
  · have h1' : 2029 ≤ y := by omega
    by_cases h2 : y ≤ 2035
    · rw [if_neg h1, if_pos ⟨h1', h2⟩, if_neg h1, if_pos h2]
      have : y = 2029 ∨ y = 2030 ∨ y = 2031 ∨ y = 2032 ∨ y = 2033 ∨ y = 2034 ∨ y = 2035 := by
        omega
      rcases this with rfl | rfl | rfl | rfl | rfl | rfl | rfl <;>
        norm_num [bev_fcev_rebate]
    · rw [if_neg h1, if_neg (by tauto : ¬(2029 ≤ y ∧ y ≤ 2035)), if_neg h1, if_neg h2]

/-- C1.  For every valid input with powertrain BEV or FCEV and every evaluated
calendar year, the federal per-tonne-km rate is 0 up to 2028, Category III
times one minus a rebate that declines linearly from 0.7 (2029) to 0.1 (2035)
in fixed 0.1 annual steps during 2029-2035, and Category III from 2036 on. -/
theorem claim_C1 (v : FederalInput) (r : FederalResult) (e : FederalEntry)
    (hpt : pyStrip v.powertrain = "BEV" ∨ pyStrip v.powertrain = "FCEV")
    (hok : calculate_lsva_charge_period v = .ok r)
    (he : e ∈ r.breakdown) :
    e.rate_chf_per_tkm =
      if e.year ≤ 2028 then 0
      else if e.year ≤ 2035 then CAT_III * (1 - (7 / 10 - ((e.year : ℚ) - 2029) / 10))
      else CAT_III := by
  obtain ⟨tonnes, rows, tot, hrows, hbd, -⟩ := calculate_ok_inv hok
  rw [hbd] at he
  have hrate := lsva_rows_rates _ _ _ _ _ _ _ hrows e he
  rw [rate_bev_fcev _ _ _ hpt] at hrate
  exact (Except.ok.injEq .. ▸ hrate).symm

/-- Sample federal BEV input used by several witnesses. -/
def fed_bev_in : FederalInput :=
  { powertrain := "BEV", size := "40t", kilometers_per_year := 100000,
    purchase_year := 2029, resale_year := 2031, year := none, euro_class := none }

/-- Federal result of `fed_bev_in`. -/
def fed_bev_out : FederalResult :=
  { total_charge_chf := 66920, total_km := 200000, cost_per_km_chf := 0.3346,
    breakdown := [⟨2029, 100000, 40, 0.00717, 28680⟩, ⟨2030, 100000, 40, 0.00956, 38240⟩] }

/-- Concrete federal evaluation shared by several witnesses. -/
lemma fed_bev_run : calculate_lsva_charge_period fed_bev_in = Except.ok fed_bev_out := by
  norm_num +decide [calculate_lsva_charge_period, fed_bev_in, fed_bev_out, pyStrip,
    stripWs, pyLower, pyLowerL, reSearch, matchTonnesAt, matchNum, isDigitC, isPyWs,
    isReWs, digitsVal, pyRange, lsva_rows, rate_chf_per_tkm_for_year, bev_fcev_rebate,
    CAT_III, List.range, List.range.loop, toLower_eval, toNat_d0, toNat_d4]

/-- Witness for C1 at the 2029 row of a concrete BEV run. -/
theorem claim_C1_witness :
    (FederalEntry.mk 2029 100000 40 0.00717 28680).rate_chf_per_tkm =
      (if (FederalEntry.mk 2029 100000 40 0.00717 28680).year ≤ 2028 then 0
       else if (FederalEntry.mk 2029 100000 40 0.00717 28680).year ≤ 2035 then
         CAT_III * (1 - (7 / 10 - (((FederalEntry.mk 2029 100000 40 0.00717 28680).year : ℚ) - 2029) / 10))
       else CAT_III) :=
  claim_C1 fed_bev_in fed_bev_out (FederalEntry.mk 2029 100000 40 0.00717 28680)
    (Or.inl rfl) fed_bev_run (by simp [fed_bev_out])

/-- Membership in the embedded `range(a, b)`. -/
lemma mem_pyRange (a b z : ℤ) : z ∈ pyRange a b ↔ a ≤ z ∧ z < b := by
  constructor
  · intro h
    simp only [pyRange] at h
    obtain ⟨i, hi, hz⟩ := List.mem_map.mp h
    have := List.mem_range.mp hi
    omega
  · intro h
    simp only [pyRange]
    exact List.mem_map.mpr ⟨(z - a).toNat, List.mem_range.mpr (by omega), by omega⟩

/-- C2.  The federal engine evaluates exactly the calendar years from
`purchase_year` up to but excluding `resale_year`, while the cantonal engine
aggregates over the inclusive window, i.e. over
`resale_year - purchase_year + 1` years. -/
theorem claim_C2 :
    (∀ (v : FederalInput) (r : FederalResult), calculate_lsva_charge_period v = .ok r →
        r.breakdown.map (fun e => e.year) = pyRange v.purchase_year v.resale_year ∧
        ∀ z : ℤ, z ∈ r.breakdown.map (fun e => e.year) ↔
          v.purchase_year ≤ z ∧ z < v.resale_year) ∧
    (∀ (v : CantonInput) (b : String) (r : CantonResult), canton_truck_tax v b = .ok r →
        r.years = v.resale_year - v.purchase_year + 1) := by
  constructor
  · intro v r hok
    obtain ⟨tonnes, rows, tot, hrows, hbd, -⟩ := calculate_ok_inv hok
    have hyears := lsva_rows_years _ _ _ _ _ _ _ hrows
    rw [hbd, hyears]
    exact ⟨rfl, fun z => mem_pyRange _ _ z⟩
  · intro v b r hok
    simp only [canton_truck_tax] at hok
    obtain ⟨res, hd, hr⟩ := except_map_ok hok
    subst hr
    rfl

/-- Sample cantonal Zurich input used by several witnesses: 18 t modern diesel,
single ownership year. -/
def zh_in : CantonInput :=
  { canton := "ZH", powertrain := "ICEV-d", year := 2015, euro_class := none,
    purchase_year := 2025, resale_year := 2025, kilometers_per_year := 50000,
    size := some (.str "18t"), original_class_name := none, power := none,
    cargo_mass := none, first_registration_year := none }

/-- Cantonal result of `zh_in`. -/
def zh_out : CantonResult :=
  { canton := "ZH", vehicle_type_inferred := none, tonnes_used := some 18,
    weight_source := some "size", annual_tax_chf := 1534, years := 1,
    total_tax_chf := 1534, total_km := 50000, chf_per_km := 0.03068,
    per_year := none,
    notes := ["Euro class: Euro 6 (manufacture year 2015).",
              "Ownership window treated as calendar-year inclusive."] }

set_option maxRecDepth 16000 in
/-- Concrete cantonal Zurich evaluation shared by several witnesses and
counterexamples: a one-year window with `resale_year = purchase_year`. -/
lemma zh_run : canton_truck_tax zh_in "midpoint" = .ok zh_out := by
  have hres : resolve_weight zh_in "midpoint" = some ((18 : ℚ), none, "size") := by
    norm_num +decide [resolve_weight, zh_in, _parse_tonnes, pyLowerL, pyFloat, splitSign,
      stripWs, digitsVal, isDigitC, isPyWs, toLower_eval, toNat_d1, toNat_d8]
  have hann : _zurich_annual 18000 (some "Euro 6") "ICEV-d" = 1534 := by
    norm_num +decide [_zurich_annual, pyUpper, pyLower, pyLowerL, pyContains, toUpper_eval,
      toLower_eval]
  have hwkg : roundHalfEven ((18000 : ℚ)) = 18000 := by norm_num [roundHalfEven]
  have hdisp : canton_dispatch zh_in "zh" "ICEV-d" "Euro 6" 2015 2025 2025 1
      (some ((18 : ℚ), none, "size")) = .ok (1534, none, []) := by
    simp only [canton_dispatch]
    norm_num +decide [zh_aliases, hwkg, hann]
  have h1 : _normalize_canton zh_in.canton = "zh" := by decide
  have h2 : pyStrip zh_in.powertrain = "ICEV-d" := by decide
  have h3 : _infer_euro_truck zh_in.year zh_in.euro_class = "Euro 6" := by decide
  have h4 : _years_owned_inclusive zh_in.purchase_year zh_in.resale_year = 1 := by decide
  have h5 : zh_in.year = 2015 := rfl
  have h6 : zh_in.purchase_year = 2025 := rfl
  have h7 : zh_in.resale_year = 2025 := rfl
  have h8 : zh_in.kilometers_per_year = 50000 := rfl
  have h9 : zh_in.euro_class = none := rfl
  have h3l : _infer_euro_truck 2015 none = "Euro 6" := by decide
  have h4l : _years_owned_inclusive 2025 2025 = 1 := by decide
  have htos : toString (2015 : ℤ) = "2015" := by decide
  simp only [canton_truck_tax, h1, h2, h3, h4, h5, h6, h7, h8, h9, h3l, h4l, hres, hdisp,
    Except.map, htos, zh_out, Except.ok.injEq, CantonResult.mk.injEq]
  refine ⟨?_, ?_, ?_, ?_, ?_, ?_, ?_, ?_, ?_, ?_, ?_⟩ <;>
    first
      | trivial
      | decide
      | norm_num [pyRound, roundHalfEven, pyTrunc]

/-- Witness for C2 at concrete federal and cantonal runs. -/
theorem claim_C2_witness :
    fed_bev_out.breakdown.map (fun e => e.year) = pyRange 2029 2031 ∧
    zh_out.years = 2025 - 2025 + 1 :=
  ⟨(claim_C2.1 fed_bev_in fed_bev_out fed_bev_run).1,
   claim_C2.2 zh_in "midpoint" zh_out zh_run⟩

/-- Sample cantonal Zurich input with a fully valid two-year window. -/
def zh2_in : CantonInput :=
  { canton := "ZH", powertrain := "ICEV-d", year := 2015, euro_class := none,
    purchase_year := 2025, resale_year := 2026, kilometers_per_year := 50000,
    size := some (.str "18t"), original_class_name := none, power := none,
    cargo_mass := none, first_registration_year := none }

/-- Cantonal result of `zh2_in`. -/
def zh2_out : CantonResult :=
  { canton := "ZH", vehicle_type_inferred := none, tonnes_used := some 18,
    weight_source := some "size", annual_tax_chf := 1534, years := 2,
    total_tax_chf := 3068, total_km := 100000, chf_per_km := 0.03068,
    per_year := none,
    notes := ["Euro class: Euro 6 (manufacture year 2015).",
              "Ownership window treated as calendar-year inclusive."] }

set_option maxRecDepth 16000 in
/-- Concrete cantonal Zurich evaluation on the valid window, shared by several
witnesses and counterexamples. -/
lemma zh2_run : canton_truck_tax zh2_in "midpoint" = .ok zh2_out := by
  have hres : resolve_weight zh2_in "midpoint" = some ((18 : ℚ), none, "size") := by
    norm_num +decide [resolve_weight, zh2_in, _parse_tonnes, pyLowerL, pyFloat, splitSign,
      stripWs, digitsVal, isDigitC, isPyWs, toLower_eval, toNat_d1, toNat_d8]
  have hann : _zurich_annual 18000 (some "Euro 6") "ICEV-d" = 1534 := by
    norm_num +decide [_zurich_annual, pyUpper, pyLower, pyLowerL, pyContains, toUpper_eval,
      toLower_eval]
  have hwkg : roundHalfEven ((18000 : ℚ)) = 18000 := by norm_num [roundHalfEven]
  have hdisp : canton_dispatch zh2_in "zh" "ICEV-d" "Euro 6" 2015 2025 2026 2
      (some ((18 : ℚ), none, "size")) = .ok (1534, none, []) := by
    simp only [canton_dispatch]
    norm_num +decide [zh_aliases, hwkg, hann]
  have h1 : _normalize_canton zh2_in.canton = "zh" := by decide
  have h2 : pyStrip zh2_in.powertrain = "ICEV-d" := by decide
  have h3 : _infer_euro_truck zh2_in.year zh2_in.euro_class = "Euro 6" := by decide
  have h4 : _years_owned_inclusive zh2_in.purchase_year zh2_in.resale_year = 2 := by decide
  have h5 : zh2_in.year = 2015 := rfl
  have h6 : zh2_in.purchase_year = 2025 := rfl
  have h7 : zh2_in.resale_year = 2026 := rfl
  have h8 : zh2_in.kilometers_per_year = 50000 := rfl
  have h9 : zh2_in.euro_class = none := rfl
  have h3l : _infer_euro_truck 2015 none = "Euro 6" := by decide
  have h4l : _years_owned_inclusive 2025 2026 = 2 := by decide
  have htos : toString (2015 : ℤ) = "2015" := by decide
  simp only [canton_truck_tax, h1, h2, h3, h4, h5, h6, h7, h8, h9, h3l, h4l, hres, hdisp,
    Except.map, htos, zh2_out, Except.ok.injEq, CantonResult.mk.injEq]
  refine ⟨?_, ?_, ?_, ?_, ?_, ?_, ?_, ?_, ?_, ?_, ?_⟩ <;>
    first
      | trivial
      | decide
      | norm_num [pyRound, roundHalfEven, pyTrunc]

/-- The embedded `range(a, b)` is empty exactly when the window is. -/
lemma pyRange_eq_nil (a b : ℤ) : pyRange a b = [] ↔ b ≤ a := by
  simp only [pyRange, List.map_eq_nil_iff, List.range_eq_nil]
  omega

/-- A successful Aargau branch never carries a per-year list. -/
lemma aargau_ok_none {v : CantonInput} {res : ℚ × Option (List PerYearEntry) × List String}
    (h : aargau_branch v = .ok res) : res.2.1 = none := by
  simp only [aargau_branch] at h
  split at h
  · exact absurd h (by simp)
  · rename_i m hm
    cases ha : _aargau_annual m with
    | error e => rw [ha] at h; exact absurd h (by simp [Except.map])
    | ok a =>
        rw [ha] at h
        simp only [Except.map] at h
        have h1 := Except.ok.inj h
        rw [← h1]

/-- Zurich aliases never name the year-looped jurisdictions. -/
lemma zh_not_loop : ∀ s ∈ zh_aliases, ¬(s ∈ ge_aliases ∨ s ∈ be_aliases) := by decide

/-- Vaud aliases never name the year-looped jurisdictions. -/
lemma vd_not_loop : ∀ s ∈ vd_aliases, ¬(s ∈ ge_aliases ∨ s ∈ be_aliases) := by decide

/-- Ticino aliases never name the year-looped jurisdictions. -/
lemma ti_not_loop : ∀ s ∈ ti_aliases, ¬(s ∈ ge_aliases ∨ s ∈ be_aliases) := by decide

/-- Graubünden aliases never name the year-looped jurisdictions. -/
lemma gr_not_loop : ∀ s ∈ gr_aliases, ¬(s ∈ ge_aliases ∨ s ∈ be_aliases) := by decide

/-- Valais aliases never name the year-looped jurisdictions. -/
lemma vs_not_loop : ∀ s ∈ vs_aliases, ¬(s ∈ ge_aliases ∨ s ∈ be_aliases) := by decide

/-- Basel-Landschaft aliases never name the year-looped jurisdictions. -/
lemma bl_not_loop : ∀ s ∈ bl_aliases, ¬(s ∈ ge_aliases ∨ s ∈ be_aliases) := by decide

/-- Fribourg aliases never name the year-looped jurisdictions. -/
lemma fr_not_loop : ∀ s ∈ fr_aliases, ¬(s ∈ ge_aliases ∨ s ∈ be_aliases) := by decide

/-- Aargau aliases never name the year-looped jurisdictions. -/
lemma ag_not_loop : ∀ s ∈ ag_aliases, ¬(s ∈ ge_aliases ∨ s ∈ be_aliases) := by decide

/-- C3 counterexample.  A cantonal input whose ownership window violates the
claimed invariant (`resale_year = purchase_year`, hence
`resale_year ≤ purchase_year`) on which the cantonal entry point nevertheless
returns a result instead of failing with `InvalidOwnershipWindow`. -/
theorem claim_C3_counterexample :
    canton_truck_tax zh_in "midpoint" = .ok zh_out ∧
    zh_in.resale_year ≤ zh_in.purchase_year :=
  ⟨zh_run, by decide⟩

/-- C3 as amended.  The federal entry point rejects a non-positive mileage and
then a non-increasing ownership window; the cantonal entry point performs no
such validation and returns a result on such inputs. -/
theorem claim_C3_amended :
    (∀ v : FederalInput, v.kilometers_per_year ≤ 0 →
        calculate_lsva_charge_period v = .error .invalidKm) ∧
    (∀ v : FederalInput, 0 < v.kilometers_per_year → v.resale_year ≤ v.purchase_year →
        calculate_lsva_charge_period v = .error .invalidWindow) ∧
    (canton_truck_tax zh_in "midpoint" = .ok zh_out ∧
      zh_in.resale_year ≤ zh_in.purchase_year) := by
  refine ⟨?_, ?_, zh_run, by decide⟩
  · intro v h
    simp only [calculate_lsva_charge_period]
    rw [if_pos h]
  · intro v h1 h2
    simp only [calculate_lsva_charge_period]
    rw [if_neg (not_le.mpr h1), if_pos h2]

/-- Federal input with zero mileage. -/
def fed_km0_in : FederalInput :=
  { powertrain := "ICEV-d", size := "40t", kilometers_per_year := 0,
    purchase_year := 2025, resale_year := 2027, year := none, euro_class := none }

/-- Federal input whose resale year precedes its purchase year. -/
def fed_badwin_in : FederalInput :=
  { powertrain := "ICEV-d", size := "40t", kilometers_per_year := 100000,
    purchase_year := 2027, resale_year := 2025, year := none, euro_class := none }

/-- Witness for the amended C3 at concrete invalid federal inputs. -/
theorem claim_C3_witness :
    calculate_lsva_charge_period fed_km0_in = .error .invalidKm ∧
    calculate_lsva_charge_period fed_badwin_in = .error .invalidWindow :=
  ⟨claim_C3_amended.1 fed_km0_in (by norm_num [fed_km0_in]),
   claim_C3_amended.2.1 fed_badwin_in (by norm_num [fed_badwin_in]) (by decide)⟩

/-- C4 counterexample.  On a fully valid Zurich input the cantonal ChargeResult
carries no per-year breakdown at all while its total is nonzero, so the total
cannot equal the sum of the breakdown charges. -/
theorem claim_C4_counterexample :
    canton_truck_tax zh2_in "midpoint" = .ok zh2_out ∧
    zh2_out.per_year = none ∧ zh2_out.total_tax_chf ≠ 0 :=
  ⟨zh2_run, rfl, by norm_num [zh2_out]⟩

/-- C4 as amended.  The federal result's total equals the sum of its breakdown
charges exactly.  The cantonal result carries a per-year breakdown exactly when
the jurisdiction is one of the year-looped ones (Geneva or Bern) and the
inclusive ownership window is nonempty; every other successful cantonal run —
Zurich, Vaud, Ticino, Graubünden, Valais, Basel-Landschaft, Fribourg, Aargau —
returns no breakdown at all. -/
theorem claim_C4_amended :
    (∀ (v : FederalInput) (r : FederalResult), calculate_lsva_charge_period v = .ok r →
        r.total_charge_chf = (r.breakdown.map (fun e => e.charge_chf)).sum) ∧
    (∀ (v : CantonInput) (b : String) (r : CantonResult), canton_truck_tax v b = .ok r →
        (r.per_year = none ↔
          ¬((_normalize_canton v.canton ∈ ge_aliases ∨ _normalize_canton v.canton ∈ be_aliases) ∧
            v.purchase_year ≤ v.resale_year))) := by
  constructor
  · intro v r hok
    obtain ⟨tonnes, rows, tot, hrows, hbd, htot⟩ := calculate_ok_inv hok
    rw [hbd, htot]
    exact lsva_rows_sum _ _ _ _ _ _ _ hrows
  · intro v b r hok
    simp only [canton_truck_tax] at hok
    obtain ⟨res, hd, hr⟩ := except_map_ok hok
    subst hr
    show res.2.1 = none ↔ _
    cases hres : resolve_weight v b with
    | none =>
        simp only [canton_dispatch, hres] at hd
        by_cases hag : _normalize_canton v.canton ∈ ag_aliases
        · rw [if_pos hag] at hd
          exact iff_of_true (aargau_ok_none hd) (fun hx => ag_not_loop _ hag hx.1)
        · rw [if_neg hag] at hd
          exact absurd hd (by simp)
    | some tup =>
        simp only [canton_dispatch, hres] at hd
        by_cases h1 : _normalize_canton v.canton ∈ zh_aliases
        · rw [if_pos h1] at hd
          have e := Except.ok.inj hd
          exact iff_of_true (by rw [← e]) (fun hx => zh_not_loop _ h1 hx.1)
        rw [if_neg h1] at hd
        by_cases h2 : _normalize_canton v.canton ∈ ge_aliases
        · rw [if_pos h2] at hd
          have e := Except.ok.inj hd
          rw [← e]
          simp only [List.isEmpty_iff, List.map_eq_nil_iff, pyRange_eq_nil]
          by_cases hwin : v.purchase_year ≤ v.resale_year
          · rw [if_neg (by omega)]
            exact iff_of_false (by simp) (not_not_intro ⟨Or.inl h2, hwin⟩)
          · rw [if_pos (by omega)]
            exact iff_of_true rfl (fun hx => hwin hx.2)
        rw [if_neg h2] at hd
        by_cases h3 : _normalize_canton v.canton ∈ vd_aliases
        · rw [if_pos h3] at hd
          have e := Except.ok.inj hd
          exact iff_of_true (by rw [← e]) (fun hx => vd_not_loop _ h3 hx.1)
        rw [if_neg h3] at hd
        by_cases h4 : _normalize_canton v.canton ∈ ti_aliases
        · rw [if_pos h4] at hd
          cases hp : v.power with
          | none => rw [hp] at hd; exact absurd hd (by simp)
          | some kw =>
              rw [hp] at hd
              have e := Except.ok.inj hd
              exact iff_of_true (by rw [← e]) (fun hx => ti_not_loop _ h4 hx.1)
        rw [if_neg h4] at hd
        by_cases h5 : _normalize_canton v.canton ∈ gr_aliases
        · rw [if_pos h5] at hd
          have e := Except.ok.inj hd
          exact iff_of_true (by rw [← e]) (fun hx => gr_not_loop _ h5 hx.1)
        rw [if_neg h5] at hd
        by_cases h6 : _normalize_canton v.canton ∈ vs_aliases
        · rw [if_pos h6] at hd
          have e := Except.ok.inj hd
          exact iff_of_true (by rw [← e]) (fun hx => vs_not_loop _ h6 hx.1)
        rw [if_neg h6] at hd
        by_cases h7 : _normalize_canton v.canton ∈ be_aliases
        · rw [if_pos h7] at hd
          have e := Except.ok.inj hd
          rw [← e]
          simp only [List.isEmpty_iff, List.map_eq_nil_iff, pyRange_eq_nil]
          by_cases hwin : v.purchase_year ≤ v.resale_year
          · rw [if_neg (by omega)]
            exact iff_of_false (by simp) (not_not_intro ⟨Or.inr h7, hwin⟩)
          · rw [if_pos (by omega)]
            exact iff_of_true rfl (fun hx => hwin hx.2)
        rw [if_neg h7] at hd
        by_cases h8 : _normalize_canton v.canton ∈ bl_aliases
        · rw [if_pos h8] at hd
          have e := Except.ok.inj hd
          exact iff_of_true (by rw [← e]) (fun hx => bl_not_loop _ h8 hx.1)
        rw [if_neg h8] at hd
        by_cases h9 : _normalize_canton v.canton ∈ fr_aliases
        · rw [if_pos h9] at hd
          have e := Except.ok.inj hd
          exact iff_of_true (by rw [← e]) (fun hx => fr_not_loop _ h9 hx.1)
        rw [if_neg h9] at hd
        by_cases h10 : _normalize_canton v.canton ∈ ag_aliases
        · rw [if_pos h10] at hd
          exact iff_of_true (aargau_ok_none hd) (fun hx => ag_not_loop _ h10 hx.1)
        · rw [if_neg h10] at hd
          exact absurd hd (by simp)

/-- Sample cantonal Geneva input: a BEV over 2024-2026, crossing the 2025
rebate start. -/
def ge_in : CantonInput :=
  { canton := "GE", powertrain := "BEV", year := 2015, euro_class := none,
    purchase_year := 2024, resale_year := 2026, kilometers_per_year := 50000,
    size := some (.str "18t"), original_class_name := none, power := none,
    cargo_mass := none, first_registration_year := none }

/-- Cantonal result of `ge_in`: a per-year breakdown is present, with the 50%
BEV reduction applied from 2025 on. -/
def ge_out : CantonResult :=
  { canton := "GE", vehicle_type_inferred := none, tonnes_used := some 18,
    weight_source := some "size", annual_tax_chf := 1224.67, years := 3,
    total_tax_chf := 3674, total_km := 150000, chf_per_km := 0.024493,
    per_year := some [⟨2024, 1837⟩, ⟨2025, 918.5⟩, ⟨2026, 918.5⟩],
    notes := ["Genève: −50% for BEV/FCEV from 2025 applied year-by-year.",
              "Euro class: Euro 6 (manufacture year 2015).",
              "Ownership window treated as calendar-year inclusive."] }

set_option maxRecDepth 16000 in
/-- Concrete cantonal Geneva evaluation, exercising the per-year loop. -/
lemma ge_run : canton_truck_tax ge_in "midpoint" = .ok ge_out := by
  have hres : resolve_weight ge_in "midpoint" = some ((18 : ℚ), none, "size") := by
    norm_num +decide [resolve_weight, ge_in, _parse_tonnes, pyLowerL, pyFloat, splitSign,
      stripWs, digitsVal, isDigitC, isPyWs, toLower_eval, toNat_d1, toNat_d8]
  have hg24 : _geneva_annual 18000 2024 "BEV" = 1837 := by
    norm_num +decide [_geneva_annual, pyUpper, toUpper_eval]
  have hg25 : _geneva_annual 18000 2025 "BEV" = 918.5 := by
    norm_num +decide [_geneva_annual, pyUpper, toUpper_eval]
  have hg26 : _geneva_annual 18000 2026 "BEV" = 918.5 := by
    norm_num +decide [_geneva_annual, pyUpper, toUpper_eval]
  have hwkg : roundHalfEven ((18000 : ℚ)) = 18000 := by norm_num [roundHalfEven]
  have hdisp : canton_dispatch ge_in "ge" "BEV" "Euro 6" 2015 2024 2026 3
      (some ((18 : ℚ), none, "size")) =
      .ok (3674 / 3, some [⟨2024, 1837⟩, ⟨2025, 918.5⟩, ⟨2026, 918.5⟩],
        ["Genève: −50% for BEV/FCEV from 2025 applied year-by-year."]) := by
    simp only [canton_dispatch]
    norm_num +decide [zh_aliases, ge_aliases, pyRange, List.range, List.range.loop,
      hwkg, hg24, hg25, hg26, pyRound, roundHalfEven, List.sum_cons, List.sum_nil]
  have h1 : _normalize_canton ge_in.canton = "ge" := by decide
  have h2 : pyStrip ge_in.powertrain = "BEV" := by decide
  have h3 : _infer_euro_truck ge_in.year ge_in.euro_class = "Euro 6" := by decide
  have h4 : _years_owned_inclusive ge_in.purchase_year ge_in.resale_year = 3 := by decide
  have h5 : ge_in.year = 2015 := rfl
  have h6 : ge_in.purchase_year = 2024 := rfl
  have h7 : ge_in.resale_year = 2026 := rfl
  have h8 : ge_in.kilometers_per_year = 50000 := rfl
  have h9 : ge_in.euro_class = none := rfl
  have h3l : _infer_euro_truck 2015 none = "Euro 6" := by decide
  have h4l : _years_owned_inclusive 2024 2026 = 3 := by decide
  have htos : toString (2015 : ℤ) = "2015" := by decide
  simp only [canton_truck_tax, h1, h2, h3, h4, h5, h6, h7, h8, h9, h3l, h4l, hres, hdisp,
    Except.map, htos, ge_out, Except.ok.injEq, CantonResult.mk.injEq]
  refine ⟨?_, ?_, ?_, ?_, ?_, ?_, ?_, ?_, ?_, ?_, ?_⟩ <;>
    first
      | trivial
      | decide
      | norm_num [pyRound, roundHalfEven, pyTrunc]

/-- Witness for the amended C4 at concrete runs: the federal sum property, a
breakdown-free Zurich run, and a Geneva run that does carry a breakdown. -/
theorem claim_C4_witness :
    (fed_bev_out.total_charge_chf =
      (fed_bev_out.breakdown.map (fun e => e.charge_chf)).sum) ∧
    (zh2_out.per_year = none ↔
      ¬((_normalize_canton zh2_in.canton ∈ ge_aliases ∨
          _normalize_canton zh2_in.canton ∈ be_aliases) ∧
        zh2_in.purchase_year ≤ zh2_in.resale_year)) ∧
    (ge_out.per_year = none ↔
      ¬((_normalize_canton ge_in.canton ∈ ge_aliases ∨
          _normalize_canton ge_in.canton ∈ be_aliases) ∧
        ge_in.purchase_year ≤ ge_in.resale_year)) :=
  ⟨claim_C4_amended.1 fed_bev_in fed_bev_out fed_bev_run,
   claim_C4_amended.2 zh2_in "midpoint" zh2_out zh2_run,
   claim_C4_amended.2 ge_in "midpoint" ge_out ge_run⟩

/-! ## Decimal numeral infrastructure for the weight-parsing claim -/

/-- Decimal digit rendered as its character. -/
def digitChar (d : Fin 10) : Char := Char.ofNat (48 + d.val)

/-- Value of a most-significant-first digit list. -/
def natOfDigits (ds : List (Fin 10)) : ℕ := ds.foldl (fun a d => 10 * a + d.val) 0

/-- Character-class facts about digit characters. -/
lemma digitChar_isDigit : ∀ d : Fin 10, isDigitC (digitChar d) = true := by decide

/-- Digit characters are not whitespace. -/
lemma digitChar_not_ws : ∀ d : Fin 10, isPyWs (digitChar d) = false := by decide

/-- Digit characters are fixed by lowercasing. -/
lemma digitChar_toLower : ∀ d : Fin 10, (digitChar d).toLower = digitChar d := by decide

/-- Digit characters are none of the separator characters. -/
lemma digitChar_ne :
    ∀ d : Fin 10, digitChar d ≠ ' ' ∧ digitChar d ≠ ',' ∧ digitChar d ≠ '.' ∧
      digitChar d ≠ '+' ∧ digitChar d ≠ '-' ∧ digitChar d ≠ 't' := by decide

/-- Numeric value of a digit character. -/
lemma digitChar_toNat : ∀ d : Fin 10, (digitChar d).toNat - 48 = d.val := by decide

/-- `digitsVal` agrees with `natOfDigits` on rendered digit lists. -/
lemma digitsVal_map (ds : List (Fin 10)) : digitsVal (ds.map digitChar) = natOfDigits ds := by
  suffices h : ∀ a : ℕ,
      (ds.map digitChar).foldl (fun a c => 10 * a + (c.toNat - 48)) a =
        ds.foldl (fun a d => 10 * a + d.val) a from h 0
  induction ds with
  | nil => intro a; rfl
  | cons d ds ih =>
      intro a
      simp only [List.map_cons, List.foldl_cons, digitChar_toNat d, ih]

/-- `dropWhile` is the identity when no element satisfies the predicate. -/
lemma dropWhile_eq_self_of {p : Char → Bool} {l : List Char} (h : ∀ c ∈ l, p c = false) :
    l.dropWhile p = l := by
  cases l with
  | nil => rfl
  | cons a l => simp [List.dropWhile_cons, h a (List.mem_cons_self a l)]

/-- `takeWhile` is the identity when every element satisfies the predicate. -/
lemma takeWhile_eq_self_of {p : Char → Bool} {l : List Char} (h : ∀ c ∈ l, p c = true) :
    l.takeWhile p = l := by
  induction l with
  | nil => rfl
  | cons a l ih =>
      simp [List.takeWhile_cons, h a (List.mem_cons_self a l),
        ih (fun c hc => h c (List.mem_cons_of_mem a hc))]

/-- `dropWhile` drops everything when every element satisfies the predicate. -/
lemma dropWhile_eq_nil_of {p : Char → Bool} {l : List Char} (h : ∀ c ∈ l, p c = true) :
    l.dropWhile p = [] := by
  induction l with
  | nil => rfl
  | cons a l ih =>
      simp [List.dropWhile_cons, h a (List.mem_cons_self a l),
        ih (fun c hc => h c (List.mem_cons_of_mem a hc))]

/-- `strip()` is the identity on whitespace-free text. -/
lemma stripWs_eq_self {l : List Char} (h : ∀ c ∈ l, isPyWs c = false) : stripWs l = l := by
  unfold stripWs
  rw [dropWhile_eq_self_of h,
    dropWhile_eq_self_of (fun c hc => h c (List.mem_reverse.mp hc)), List.reverse_reverse]

/-- The sign splitter is inert on text led by a rendered digit. -/
lemma splitSign_digits (ds : List (Fin 10)) (h : ds ≠ []) (r : List Char) :
    splitSign (ds.map digitChar ++ r) = (1, ds.map digitChar ++ r) := by
  cases ds with
  | nil => exact absurd rfl h
  | cons d ds =>
      simp [splitSign, (digitChar_ne d).2.2.2.1, (digitChar_ne d).2.2.2.2.1]

/-- `float(...)` on a rendered digit list. -/
lemma pyFloat_digits (ds : List (Fin 10)) (h : ds ≠ []) :
    pyFloat (ds.map digitChar) = some ((natOfDigits ds : ℚ)) := by
  have hd : ∀ c ∈ ds.map digitChar, isDigitC c = true := by
    intro c hc
    obtain ⟨d, -, rfl⟩ := List.mem_map.mp hc
    exact digitChar_isDigit d
  have hw : ∀ c ∈ ds.map digitChar, isPyWs c = false := by
    intro c hc
    obtain ⟨d, -, rfl⟩ := List.mem_map.mp hc
    exact digitChar_not_ws d
  have hne : ds.map digitChar ≠ [] := by
    cases ds with
    | nil => exact absurd rfl h
    | cons d ds => simp
  simp only [pyFloat, stripWs_eq_self hw]
  rw [show ds.map digitChar = ds.map digitChar ++ ([] : List Char) from (List.append_nil _).symm,
    splitSign_digits ds h []]
  simp only [List.append_nil, takeWhile_eq_self_of hd, dropWhile_eq_nil_of hd]
  rw [if_neg (by simpa [List.isEmpty_iff] using hne)]
  simp [digitsVal_map]

/-- `float(...)` on a rendered `digits.digits` decimal literal. -/
lemma pyFloat_digits_frac (ds es : List (Fin 10)) (hds : ds ≠ []) :
    pyFloat (ds.map digitChar ++ '.' :: es.map digitChar) =
      some ((natOfDigits ds : ℚ) + (natOfDigits es : ℚ) / 10 ^ es.length) := by
  have hdD : ∀ c ∈ ds.map digitChar, isDigitC c = true := by
    intro c hc
    obtain ⟨d, -, rfl⟩ := List.mem_map.mp hc
    exact digitChar_isDigit d
  have hdE : ∀ c ∈ es.map digitChar, isDigitC c = true := by
    intro c hc
    obtain ⟨d, -, rfl⟩ := List.mem_map.mp hc
    exact digitChar_isDigit d
  have hw : ∀ c ∈ ds.map digitChar ++ '.' :: es.map digitChar, isPyWs c = false := by
    intro c hc
    rcases List.mem_append.mp hc with hc | hc
    · obtain ⟨d, -, rfl⟩ := List.mem_map.mp hc
      exact digitChar_not_ws d
    · rcases List.mem_cons.mp hc with rfl | hc
      · decide
      · obtain ⟨d, -, rfl⟩ := List.mem_map.mp hc
        exact digitChar_not_ws d
  have hne : ds.map digitChar ≠ [] := by
    cases ds with
    | nil => exact absurd rfl hds
    | cons d ds => simp
  simp only [pyFloat, stripWs_eq_self hw, splitSign_digits ds hds]
  rw [List.takeWhile_append_of_pos hdD, List.dropWhile_append_of_pos hdD]
  have hdot : isDigitC '.' = false := by decide
  simp only [List.takeWhile_cons, List.dropWhile_cons, hdot, Bool.false_eq_true, if_false,
    List.append_nil, takeWhile_eq_self_of hdE, dropWhile_eq_nil_of hdE]
  rw [if_neg (by simp [List.isEmpty_iff, hne])]
  simp [digitsVal_map]

/-- `toList` of a literal string built from a character list. -/
lemma toList_mk (l : List Char) : (⟨l⟩ : String).toList = l := rfl

/-- Lowercasing is inert on rendered digit lists. -/
lemma lower_digits (ds : List (Fin 10)) :
    pyLowerL (ds.map digitChar) = ds.map digitChar := by
  refine (List.map_congr_left ?_).trans (List.map_id _)
  intro x hx
  obtain ⟨d, -, rfl⟩ := List.mem_map.mp hx
  exact digitChar_toLower d

/-- Space removal is inert on rendered digit lists. -/
lemma filter_space_digits (ds : List (Fin 10)) :
    (ds.map digitChar).filter (fun x => decide (x ≠ ' ')) = ds.map digitChar := by
  refine List.filter_eq_self.mpr ?_
  intro x hx
  obtain ⟨d, -, rfl⟩ := List.mem_map.mp hx
  exact decide_eq_true (digitChar_ne d).1

/-- Comma-to-dot replacement is inert on rendered digit lists. -/
lemma commaMap_digits (ds : List (Fin 10)) :
    (ds.map digitChar).map (fun x => if x = ',' then '.' else x) = ds.map digitChar := by
  refine (List.map_congr_left ?_).trans (List.map_id _)
  intro x hx
  obtain ⟨d, -, rfl⟩ := List.mem_map.mp hx
  exact if_neg (digitChar_ne d).2.1

/-- Space removal over `replicate n \' \'` leaves nothing. -/
lemma filter_space_replicate (n : ℕ) :
    (List.replicate n ' ').filter (fun x => decide (x ≠ ' ')) = [] := by
  induction n with
  | zero => rfl
  | succ n ih => simp [List.replicate_succ, List.filter_cons, ih]

/-- A rendered digit list never ends in the unit character `t`. -/
lemma getLast_digits_ne_t (ds : List (Fin 10)) :
    (ds.map digitChar).getLast? ≠ some 't' := by
  rw [List.getLast?_map]
  cases h : ds.getLast? with
  | none => simp
  | some d => simp [(digitChar_ne d).2.2.2.2.2]

/-- The cantonal weight parser on a decimal numeral with optional spaces, a
comma or dot separator and a trailing `t` unit. -/
lemma parse_tonnes_decimal (a c : ℕ) (ds es : List (Fin 10)) (sep : Char)
    (hds : ds ≠ []) (hsep : sep = ',' ∨ sep = '.') :
    _parse_tonnes (some (.str ⟨List.replicate a ' ' ++ (ds.map digitChar ++ (sep ::
        (es.map digitChar ++ (List.replicate c ' ' ++ ['t']))))⟩)) =
      some ((natOfDigits ds : ℚ) + (natOfDigits es : ℚ) / 10 ^ es.length) := by
  have hs1 : sep ≠ ' ' := by rcases hsep with rfl | rfl <;> decide
  have hs2 : sep.toLower = sep := by rcases hsep with rfl | rfl <;> decide
  have hs3 : (if sep = ',' then '.' else sep) = '.' := by rcases hsep with rfl | rfl <;> decide
  have hlow : pyLowerL (List.replicate a ' ' ++ (ds.map digitChar ++ (sep ::
      (es.map digitChar ++ (List.replicate c ' ' ++ ['t']))))) =
      List.replicate a ' ' ++ (ds.map digitChar ++ (sep ::
      (es.map digitChar ++ (List.replicate c ' ' ++ ['t'])))) := by
    simp only [pyLowerL, List.map_append, List.map_cons, List.map_replicate, hs2]
    rw [show Char.toLower ' ' = ' ' from by decide, show Char.toLower 't' = 't' from by decide]
    rw [show (ds.map digitChar).map Char.toLower = ds.map digitChar from lower_digits ds,
      show (es.map digitChar).map Char.toLower = es.map digitChar from lower_digits es]
    rfl
  have hfil : (List.replicate a ' ' ++ (ds.map digitChar ++ (sep ::
      (es.map digitChar ++ (List.replicate c ' ' ++ ['t']))))).filter
        (fun x => decide (x ≠ ' ')) =
      ds.map digitChar ++ (sep :: (es.map digitChar ++ ['t'])) := by
    simp only [List.filter_append, List.filter_cons, filter_space_replicate,
      filter_space_digits, decide_eq_true hs1]
    simp
  have hassoc : ds.map digitChar ++ (sep :: (es.map digitChar ++ ['t'])) =
      (ds.map digitChar ++ (sep :: es.map digitChar)) ++ ['t'] := by
    simp [List.append_assoc]
  have hmapf : (ds.map digitChar ++ (sep :: es.map digitChar)).map
      (fun x => if x = ',' then '.' else x) =
      ds.map digitChar ++ ('.' :: es.map digitChar) := by
    simp only [List.map_append, List.map_cons, hs3, commaMap_digits]
  simp only [_parse_tonnes, toList_mk, hlow, hfil, hassoc, List.getLast?_concat]
  rw [if_pos trivial, List.dropLast_concat, hmapf, pyFloat_digits_frac ds es hds]

/-- The cantonal weight parser on a bare digit numeral and on its
`t`-suffixed form. -/
lemma parse_tonnes_bare (ds : List (Fin 10)) (hds : ds ≠ []) :
    _parse_tonnes (some (.str ⟨ds.map digitChar⟩)) = some ((natOfDigits ds : ℚ)) ∧
    _parse_tonnes (some (.str ⟨ds.map digitChar ++ ['t']⟩)) = some ((natOfDigits ds : ℚ)) := by
  constructor
  · simp only [_parse_tonnes, toList_mk, lower_digits, filter_space_digits]
    rw [if_neg (getLast_digits_ne_t ds), commaMap_digits, pyFloat_digits ds hds]
  · have hlow : pyLowerL (ds.map digitChar ++ ['t']) = ds.map digitChar ++ ['t'] := by
      simp only [pyLowerL, List.map_append, List.map_cons, List.map_nil]
      rw [show Char.toLower 't' = 't' from by decide,
        show (ds.map digitChar).map Char.toLower = ds.map digitChar from lower_digits ds]
    have hfil : (ds.map digitChar ++ ['t']).filter (fun x => decide (x ≠ ' ')) =
        ds.map digitChar ++ ['t'] := by
      simp only [List.filter_append, filter_space_digits, List.filter_cons]
      simp
    simp only [_parse_tonnes, toList_mk, hlow, hfil, List.getLast?_concat]
    rw [if_pos trivial, List.dropLast_concat, commaMap_digits, pyFloat_digits ds hds]

/-- The federal size regex never matches inside a pure digit run (there is no
`t` unit anywhere). -/
lemma reSearch_tonnes_digits (l : List Char) (h : ∀ x ∈ l, isDigitC x = true ∧ x ≠ 't') :
    reSearch matchTonnesAt l = none := by
  induction l with
  | nil => rfl
  | cons x xs ih =>
      have hxs : ∀ y ∈ xs, isDigitC y = true ∧ y ≠ 't' :=
        fun y hy => h y (List.mem_cons_of_mem x hy)
      have hall : ∀ y ∈ x :: xs, isDigitC y = true := by
        intro y hy
        exact (h y hy).1
      have hmatch : matchTonnesAt (x :: xs) = none := by
        have h1 : (x :: xs).takeWhile isDigitC = x :: xs := takeWhile_eq_self_of hall
        have h2 : (x :: xs).dropWhile isDigitC = ([] : List Char) := dropWhile_eq_nil_of hall
        simp [matchTonnesAt, matchNum, h1, h2]
      simp only [reSearch, hmatch]
      exact ih hxs

/-- Federal input with a bare numeral size (no `t` suffix). -/
def fed_bare_in : FederalInput :=
  { powertrain := "BEV", size := "40", kilometers_per_year := 100000,
    purchase_year := 2025, resale_year := 2027, year := none, euro_class := none }

/-- Federal input whose size uses a comma decimal separator. -/
def fed_comma_in : FederalInput :=
  { powertrain := "BEV", size := "40,5 t", kilometers_per_year := 100000,
    purchase_year := 2025, resale_year := 2027, year := none, euro_class := none }

/-- C5 counterexample.  In the federal engine an explicit weight does not parse
like the claim demands: the bare numeral `"40"` is rejected outright, and the
comma-decimal `"40,5 t"` parses to 5 tonnes instead of 40.5. -/
theorem claim_C5_counterexample :
    calculate_lsva_charge_period fed_bare_in = .error .unparseableSize ∧
    (calculate_lsva_charge_period fed_comma_in).map
        (fun r => r.breakdown.map (fun e => e.tonnes)) = .ok [5, 5] ∧
    (5 : ℚ) ≠ 40.5 := by
  refine ⟨?_, ?_, by norm_num⟩
  · norm_num +decide [calculate_lsva_charge_period, fed_bare_in, pyStrip, stripWs, pyLower,
      pyLowerL, reSearch, matchTonnesAt, matchNum, isDigitC, isPyWs, isReWs, digitsVal,
      toLower_eval, toNat_d0, toNat_d4]
  · norm_num +decide [calculate_lsva_charge_period, fed_comma_in, pyStrip, stripWs, pyLower,
      pyLowerL, reSearch, matchTonnesAt, matchNum, isDigitC, isPyWs, isReWs, digitsVal,
      pyRange, lsva_rows, rate_chf_per_tkm_for_year, bev_fcev_rebate, CAT_III, List.range,
      List.range.loop, toLower_eval, toNat_d0, toNat_d4, toNat_d5, Except.map]

/-- C5 as amended.  In the cantonal engine an explicit weight wins over the
class-band descriptor and parses as a bare number (native numeric value, bare
digit string, or `t`-suffixed string) with spaces removed and a comma or dot
decimal separator accepted; the federal engine instead requires the `t` suffix,
rejecting a pure digit run with a parse error. -/
theorem claim_C5_amended :
    (∀ q : ℚ, _parse_tonnes (some (.num q)) = some q) ∧
    (∀ (v : CantonInput) (b : String) (t : ℚ), _parse_tonnes v.size = some t →
        resolve_weight v b = some (t, none, "size")) ∧
    (∀ (a c : ℕ) (ds es : List (Fin 10)) (sep : Char), ds ≠ [] → sep = ',' ∨ sep = '.' →
        _parse_tonnes (some (.str ⟨List.replicate a ' ' ++ (ds.map digitChar ++ (sep ::
            (es.map digitChar ++ (List.replicate c ' ' ++ ['t']))))⟩)) =
          some ((natOfDigits ds : ℚ) + (natOfDigits es : ℚ) / 10 ^ es.length)) ∧
    (∀ ds : List (Fin 10), ds ≠ [] →
        _parse_tonnes (some (.str ⟨ds.map digitChar⟩)) = some ((natOfDigits ds : ℚ)) ∧
        _parse_tonnes (some (.str ⟨ds.map digitChar ++ ['t']⟩)) =
          some ((natOfDigits ds : ℚ))) ∧
    (∀ (v : FederalInput) (ds : List (Fin 10)), ds ≠ [] →
        v.size = ⟨ds.map digitChar⟩ → 0 < v.kilometers_per_year →
        v.purchase_year < v.resale_year →
        calculate_lsva_charge_period v = .error .unparseableSize) := by
  refine ⟨fun q => rfl, ?_, parse_tonnes_decimal, parse_tonnes_bare, ?_⟩
  · intro v b t h
    simp [resolve_weight, h]
  · intro v ds hds hsize hkm hwin
    have hd : ∀ x ∈ ds.map digitChar, isDigitC x = true ∧ x ≠ 't' := by
      intro x hx
      obtain ⟨d, -, rfl⟩ := List.mem_map.mp hx
      exact ⟨digitChar_isDigit d, (digitChar_ne d).2.2.2.2.2⟩
    have hw : ∀ x ∈ ds.map digitChar, isPyWs x = false := by
      intro x hx
      obtain ⟨d, -, rfl⟩ := List.mem_map.mp hx
      exact digitChar_not_ws d
    have hlow : pyLowerL (ds.map digitChar) = ds.map digitChar := by
      refine (List.map_congr_left ?_).trans (List.map_id _)
      intro x hx
      obtain ⟨d, -, rfl⟩ := List.mem_map.mp hx
      exact digitChar_toLower d
    simp only [calculate_lsva_charge_period, hsize]
    rw [if_neg (not_le.mpr hkm), if_neg (not_le.mpr hwin)]
    have hsz : pyLower (pyStrip ⟨ds.map digitChar⟩) = ⟨ds.map digitChar⟩ := by
      simp only [pyLower, pyStrip, toList_mk, stripWs_eq_self hw, hlow]
    rw [hsz, toList_mk, reSearch_tonnes_digits _ hd]

/-- Witness for the amended C5: `"40,5 t"`-style and `"40"`-style values at
concrete digit lists, plus the explicit-weight-wins path on a concrete input,
plus the federal rejection of the bare `"40"`. -/
theorem claim_C5_witness :
    _parse_tonnes (some (.str ⟨List.replicate 0 ' ' ++ ([(4 : Fin 10), 0].map digitChar ++
        (',' :: (([(5 : Fin 10)] : List (Fin 10)).map digitChar ++
          (List.replicate 1 ' ' ++ ['t']))))⟩)) =
      some ((natOfDigits [(4 : Fin 10), 0] : ℚ) +
        (natOfDigits [(5 : Fin 10)] : ℚ) / 10 ^ ([(5 : Fin 10)] : List (Fin 10)).length) ∧
    resolve_weight zh_in "midpoint" = some ((18 : ℚ), none, "size") ∧
    calculate_lsva_charge_period fed_bare_in = .error .unparseableSize := by
  refine ⟨?_, ?_, ?_⟩
  · exact claim_C5_amended.2.2.1 0 1 [4, 0] [5] ',' (by decide) (Or.inl rfl)
  · refine claim_C5_amended.2.1 zh_in "midpoint" 18 ?_
    norm_num +decide [zh_in, _parse_tonnes, pyLowerL, pyFloat, splitSign, stripWs,
      digitsVal, isDigitC, isPyWs, toLower_eval, toNat_d1, toNat_d8]
  · exact claim_C5_amended.2.2.2.2 fed_bare_in [4, 0] (by decide) (by decide)
      (by norm_num [fed_bare_in]) (by decide)

/-- Rate selection for internal-combustion and hybrid powertrains in terms of
the modern-era flag. -/
lemma rate_ice (pt : String) (m : Bool) (y : ℤ)
    (hpt : pt = "ICEV-d" ∨ pt = "ICEV-g" ∨ pt = "HEV-d" ∨ pt = "PHEV-d") :
    rate_chf_per_tkm_for_year pt m y =
      .ok (if m then (if y ≤ 2028 then CAT_III else CAT_II) else CAT_I) := by
  rcases hpt with rfl | rfl | rfl | rfl <;> cases m <;>
    simp [rate_chf_per_tkm_for_year]

/-- Federal input carrying an explicit `euro_class` key that the federal engine
never reads: an old (2010) diesel truck declared as Euro 6. -/
def fed_euro_in : FederalInput :=
  { powertrain := "ICEV-d", size := "40t", kilometers_per_year := 100000,
    purchase_year := 2025, resale_year := 2026, year := some 2010,
    euro_class := some "Euro 6" }

/-- Federal result of `fed_euro_in`: the Category I (old-era) rate applies. -/
def fed_euro_out : FederalResult :=
  { total_charge_chf := 130400, total_km := 100000, cost_per_km_chf := 1.304,
    breakdown := [⟨2025, 100000, 40, 0.0326, 130400⟩] }

/-- Concrete federal evaluation of the euro-class-carrying input. -/
lemma fed_euro_run : calculate_lsva_charge_period fed_euro_in = Except.ok fed_euro_out := by
  norm_num +decide [calculate_lsva_charge_period, fed_euro_in, fed_euro_out, pyStrip,
    stripWs, pyLower, pyLowerL, reSearch, matchTonnesAt, matchNum, isDigitC, isPyWs,
    isReWs, digitsVal, pyRange, lsva_rows, rate_chf_per_tkm_for_year, bev_fcev_rebate,
    CAT_I, List.range, List.range.loop, toLower_eval, toNat_d0, toNat_d4]

/-- C6 counterexample.  An input with `euro_class = "Euro 6"` and manufacture
year 2010: the federal engine still charges the old-era Category I rate
0.0326, not the modern rates 0.0239/0.0282 that an overriding Euro 6 class
would select — `euro_class` does not determine the era in the federal
engine. -/
theorem claim_C6_counterexample :
    fed_euro_in.euro_class = some "Euro 6" ∧
    (calculate_lsva_charge_period fed_euro_in).map
        (fun r => r.breakdown.map (fun e => e.rate_chf_per_tkm)) = .ok [0.0326] ∧
    (0.0326 : ℚ) ≠ 0.0239 ∧ (0.0326 : ℚ) ≠ 0.0282 := by
  refine ⟨rfl, ?_, by norm_num, by norm_num⟩
  rw [fed_euro_run]
  rfl

/-- C6 as amended.  `euro_class` overrides the year-based inference only in the
cantonal engine (through `_infer_euro_truck`); the federal engine ignores the
field entirely and always infers the era from the manufacture year, with
"modern" holding iff that year is at least 2014 — the same cutoff
`_infer_euro_truck` uses when `euro_class` is absent. -/
theorem claim_C6_amended :
    (∀ (v : FederalInput) (e1 e2 : Option String),
        calculate_lsva_charge_period { v with euro_class := e1 } =
          calculate_lsva_charge_period { v with euro_class := e2 }) ∧
    (∀ (y : ℤ) (e : String), e ≠ "" → _infer_euro_truck y (some e) = e) ∧
    (∀ y : ℤ, _infer_euro_truck y none = if 2014 ≤ y then "Euro 6" else "Euro 5") ∧
    (∀ (v : FederalInput) (r : FederalResult) (e : FederalEntry),
        (pyStrip v.powertrain = "ICEV-d" ∨ pyStrip v.powertrain = "ICEV-g" ∨
          pyStrip v.powertrain = "HEV-d" ∨ pyStrip v.powertrain = "PHEV-d") →
        calculate_lsva_charge_period v = .ok r → e ∈ r.breakdown →
        e.rate_chf_per_tkm =
          if 2014 ≤ v.year.getD v.purchase_year then
            (if e.year ≤ 2028 then CAT_III else CAT_II)
          else CAT_I) := by
  refine ⟨fun v e1 e2 => rfl, ?_, fun y => rfl, ?_⟩
  · intro y e he
    simp [_infer_euro_truck, he]
  · intro v r e hpt hok he
    obtain ⟨tonnes, rows, tot, hrows, hbd, -⟩ := calculate_ok_inv hok
    rw [hbd] at he
    have hrate := lsva_rows_rates _ _ _ _ _ _ _ hrows e he
    rw [rate_ice _ _ _ hpt] at hrate
    have h := (Except.ok.injEq .. ▸ hrate).symm
    by_cases h2014 : 2014 ≤ v.year.getD v.purchase_year
    · rw [if_pos h2014]
      rw [h]
      simp [h2014]
    · rw [if_neg h2014]
      rw [h]
      simp [h2014]

/-- Witness for the amended C6: the federal engine is euro-class-blind at a
concrete input; the cantonal inference both respects an explicit class and
applies the 2014 cutoff; the concrete 2010 vehicle gets Category I. -/
theorem claim_C6_witness :
    calculate_lsva_charge_period { fed_euro_in with euro_class := some "Euro 6" } =
      calculate_lsva_charge_period { fed_euro_in with euro_class := none } ∧
    _infer_euro_truck 2010 (some "Euro 6") = "Euro 6" ∧
    _infer_euro_truck 2013 none = (if 2014 ≤ (2013 : ℤ) then "Euro 6" else "Euro 5") ∧
    (FederalEntry.mk 2025 100000 40 0.0326 130400).rate_chf_per_tkm =
      (if 2014 ≤ (fed_euro_in.year.getD fed_euro_in.purchase_year) then
        (if (FederalEntry.mk 2025 100000 40 0.0326 130400).year ≤ 2028 then CAT_III else CAT_II)
       else CAT_I) :=
  ⟨claim_C6_amended.1 fed_euro_in (some "Euro 6") none,
   claim_C6_amended.2.1 2010 "Euro 6" (by decide),
   claim_C6_amended.2.2.1 2013,
   claim_C6_amended.2.2.2 fed_euro_in fed_euro_out
     (FederalEntry.mk 2025 100000 40 0.0326 130400) (Or.inl rfl) fed_euro_run
     (by simp [fed_euro_out])⟩

/-- A cantonal run with no resolvable weight and a non-Aargau canton fails with
the missing-weight error. -/
lemma ctt_unparseable (w : CantonInput) (b : String)
    (hres : resolve_weight w b = none)
    (hag : _normalize_canton w.canton ∉ ag_aliases) :
    canton_truck_tax w b = .error .unparseableWeight := by
  simp only [canton_truck_tax, canton_dispatch, hres]
  rw [if_neg hag]
  rfl

/-- Closed form of a Zurich-dispatched cantonal run. -/
lemma ctt_zh_ok (w : CantonInput) (b : String) (t : ℚ) (vt : Option String) (ws : String)
    (hres : resolve_weight w b = some (t, vt, ws))
    (hzh : _normalize_canton w.canton ∈ zh_aliases) :
    canton_truck_tax w b = .ok
      { canton := w.canton
        vehicle_type_inferred := vt
        tonnes_used := some (pyRound 3 t)
        weight_source := some ws
        annual_tax_chf := pyRound 2 (_zurich_annual (roundHalfEven (t * 1000))
          (some (_infer_euro_truck w.year w.euro_class)) (pyStrip w.powertrain))
        years := _years_owned_inclusive w.purchase_year w.resale_year
        total_tax_chf := pyRound 2 (_zurich_annual (roundHalfEven (t * 1000))
          (some (_infer_euro_truck w.year w.euro_class)) (pyStrip w.powertrain) *
          ((_years_owned_inclusive w.purchase_year w.resale_year : ℤ) : ℚ))
        total_km := pyTrunc (w.kilometers_per_year *
          ((_years_owned_inclusive w.purchase_year w.resale_year : ℤ) : ℚ))
        chf_per_km := pyRound 6
          (if 0 < w.kilometers_per_year *
              ((_years_owned_inclusive w.purchase_year w.resale_year : ℤ) : ℚ) then
            _zurich_annual (roundHalfEven (t * 1000))
                (some (_infer_euro_truck w.year w.euro_class)) (pyStrip w.powertrain) *
                ((_years_owned_inclusive w.purchase_year w.resale_year : ℤ) : ℚ) /
              (w.kilometers_per_year *
                ((_years_owned_inclusive w.purchase_year w.resale_year : ℤ) : ℚ))
          else 0)
        per_year := none
        notes := ["Euro class: " ++ _infer_euro_truck w.year w.euro_class ++
            " (manufacture year " ++ toString w.year ++ ").",
          "Ownership window treated as calendar-year inclusive."] } := by
  simp only [canton_truck_tax, canton_dispatch, hres]
  rw [if_pos hzh]
  rfl

/-- Zurich aliases are disjoint from the Aargau aliases. -/
lemma zh_not_ag : ∀ s ∈ zh_aliases, s ∉ ag_aliases := by decide

/-- C7.  Canton resolution strips diacritics, case-folds and strips whitespace
before matching the alias table, so "Zürich", "zurich" and "ZH" all select the
Zurich formula (identical results up to the echoed raw name); any name that
normalizes to no known alias reaches the dispatch point and fails there with
`UnsupportedCanton` — never a silent default. -/
theorem claim_C7 :
    (_normalize_canton "Zürich" = "zurich" ∧ _normalize_canton "zurich" = "zurich" ∧
      _normalize_canton "ZH" = "zh" ∧ "zurich" ∈ zh_aliases ∧ "zh" ∈ zh_aliases) ∧
    (∀ (v : CantonInput) (b : String) (c : String), _normalize_canton c ∈ zh_aliases →
        (canton_truck_tax { v with canton := c } b).map (fun r => { r with canton := "" }) =
          (canton_truck_tax { v with canton := "ZH" } b).map
            (fun r => { r with canton := "" })) ∧
    (∀ (v : CantonInput) (b : String), resolve_weight v b ≠ none →
        _normalize_canton v.canton ∉ all_canton_aliases →
        canton_truck_tax v b = .error (.unsupportedCanton v.canton)) := by
  refine ⟨⟨by decide, by decide, by decide, by decide, by decide⟩, ?_, ?_⟩
  · intro v b c hc
    have hzh : _normalize_canton "ZH" ∈ zh_aliases := by decide
    cases hres : resolve_weight v b with
    | none =>
        rw [ctt_unparseable { v with canton := c } b hres (zh_not_ag _ hc),
          ctt_unparseable { v with canton := "ZH" } b hres (zh_not_ag _ hzh)]
    | some tup =>
        obtain ⟨t, vt, ws⟩ := tup
        rw [ctt_zh_ok { v with canton := c } b t vt ws hres hc,
          ctt_zh_ok { v with canton := "ZH" } b t vt ws hres hzh]
        rfl
  · intro v b hres hcanton
    obtain ⟨tup, htup⟩ := Option.ne_none_iff_exists'.mp hres
    have h01 : _normalize_canton v.canton ∉ zh_aliases := fun h =>
      hcanton (by simp [all_canton_aliases, h])
    have h02 : _normalize_canton v.canton ∉ ge_aliases := fun h =>
      hcanton (by simp [all_canton_aliases, h])
    have h03 : _normalize_canton v.canton ∉ vd_aliases := fun h =>
      hcanton (by simp [all_canton_aliases, h])
    have h04 : _normalize_canton v.canton ∉ ti_aliases := fun h =>
      hcanton (by simp [all_canton_aliases, h])
    have h05 : _normalize_canton v.canton ∉ gr_aliases := fun h =>
      hcanton (by simp [all_canton_aliases, h])
    have h06 : _normalize_canton v.canton ∉ vs_aliases := fun h =>
      hcanton (by simp [all_canton_aliases, h])
    have h07 : _normalize_canton v.canton ∉ be_aliases := fun h =>
      hcanton (by simp [all_canton_aliases, h])
    have h08 : _normalize_canton v.canton ∉ bl_aliases := fun h =>
      hcanton (by simp [all_canton_aliases, h])
    have h09 : _normalize_canton v.canton ∉ fr_aliases := fun h =>
      hcanton (by simp [all_canton_aliases, h])
    have h10 : _normalize_canton v.canton ∉ ag_aliases := fun h =>
      hcanton (by simp [all_canton_aliases, h])
    simp only [canton_truck_tax, canton_dispatch, htup]
    rw [if_neg h01, if_neg h02, if_neg h03, if_neg h04, if_neg h05, if_neg h06, if_neg h07,
      if_neg h08, if_neg h09, if_neg h10]
    rfl

/-- Cantonal input with an unknown canton name. -/
def so_in : CantonInput :=
  { canton := "Solothurn", powertrain := "ICEV-d", year := 2015, euro_class := none,
    purchase_year := 2025, resale_year := 2026, kilometers_per_year := 50000,
    size := some (.str "18t"), original_class_name := none, power := none,
    cargo_mass := none, first_registration_year := none }

/-- Witness for C7: the three Zurich spellings agree on a concrete input and an
unknown canton fails with `UnsupportedCanton`. -/
theorem claim_C7_witness :
    (canton_truck_tax { zh_in with canton := "Zürich" } "midpoint").map
        (fun r => { r with canton := "" }) =
      (canton_truck_tax { zh_in with canton := "ZH" } "midpoint").map
        (fun r => { r with canton := "" }) ∧
    canton_truck_tax so_in "midpoint" = .error (.unsupportedCanton "Solothurn") := by
  constructor
  · exact claim_C7.2.1 zh_in "midpoint" "Zürich" (by decide)
  · refine claim_C7.2.2 so_in "midpoint" ?_ (by decide)
    have h : resolve_weight so_in "midpoint" = some ((18 : ℚ), none, "size") := by
      norm_num +decide [resolve_weight, so_in, _parse_tonnes, pyLowerL, pyFloat, splitSign,
        stripWs, digitsVal, isDigitC, isPyWs, toLower_eval, toNat_d1, toNat_d8]
    rw [h]
    simp

/-- C8.  Band resolution: `midpoint` gives the mean of the bounds, `upper` the
upper bound, `lower` the lower bound; an open-ended band resolves to its lower
bound for every strategy; in particular midpoint of [20, 26] is 23 and the
open-ended `>32t` class gives 32. -/
theorem claim_C8 :
    (∀ mn mx : ℚ, _tonnes_from_band (some mn) (some mx) "midpoint" = some ((mn + mx) / 2)) ∧
    (∀ mn mx : ℚ, _tonnes_from_band (some mn) (some mx) "upper" = some mx) ∧
    (∀ mn mx : ℚ, _tonnes_from_band (some mn) (some mx) "lower" = some mn) ∧
    (∀ (mn : ℚ) (s : String), _tonnes_from_band (some mn) none s = some mn) ∧
    _tonnes_from_band (some 20) (some 26) "midpoint" = some 23 ∧
    parse_original_class_name "LKW >32t" = some ("rigid", 32, none) ∧
    (∀ s : String, _tonnes_from_band (some 32) none s = some 32) := by
  refine ⟨?_, ?_, ?_, fun mn s => rfl, ?_, by decide, fun s => rfl⟩
  · intro mn mx
    simp [_tonnes_from_band]
  · intro mn mx
    simp [_tonnes_from_band]
  · intro mn mx
    simp [_tonnes_from_band]
  · norm_num +decide [_tonnes_from_band]

/-- C9 counterexample.  At 10 000 kg, FCEV pays the full standard Graubünden
tariff 1281.30 CHF, not the 20% secondary-category amount 331.70 CHF that the
claim promises for every zero-emission powertrain. -/
theorem claim_C9_counterexample :
    _graubuenden_annual 10000 "FCEV" = 1281.3 ∧
    0.20 * _gr_cat2 10000 = 331.7 ∧
    (1281.3 : ℚ) ≠ 331.7 := by
  refine ⟨?_, ?_, by norm_num⟩
  · norm_num +decide [_graubuenden_annual, pyUpper, toUpper_eval]
  · norm_num [_gr_cat2]

/-- C9 as amended.  In Graubünden, BEV and the hybrids HEV-d/PHEV-d pay 20% of
the internally computed secondary-category tariff; FCEV is not in the rebate
set and is taxed exactly like a conventional diesel truck. -/
theorem claim_C9_amended :
    (∀ w : ℤ, _graubuenden_annual w "BEV" = 0.20 * _gr_cat2 w) ∧
    (∀ w : ℤ, _graubuenden_annual w "HEV-d" = 0.20 * _gr_cat2 w) ∧
    (∀ w : ℤ, _graubuenden_annual w "PHEV-d" = 0.20 * _gr_cat2 w) ∧
    (∀ w : ℤ, _graubuenden_annual w "FCEV" = _graubuenden_annual w "ICEV-d") := by
  have hb : pyUpper "BEV" = "BEV" := by decide
  have hh : pyUpper "HEV-d" = "HEV-D" := by decide
  have hp : pyUpper "PHEV-d" = "PHEV-D" := by decide
  have hf : pyUpper "FCEV" = "FCEV" := by decide
  have hi : pyUpper "ICEV-d" = "ICEV-D" := by decide
  refine ⟨?_, ?_, ?_, ?_⟩ <;> intro w <;>
    simp [_graubuenden_annual, hb, hh, hp, hf, hi]

/-- C10.  For an Aargau input whose cargo-mass (payload) field is present but
below 1000 kg, the cantonal computation fails with the payload error instead
of producing a tax. -/
theorem claim_C10 (v : CantonInput) (b : String) (m : ℤ)
    (hag : _normalize_canton v.canton ∈ ag_aliases)
    (hcm : v.cargo_mass = some m) (hm : m < 1000) :
    canton_truck_tax v b = .error .agPayloadTooSmall := by
  have hcases : _normalize_canton v.canton = "ag" ∨ _normalize_canton v.canton = "aargau" := by
    simpa [ag_aliases] using hag
  have h01 : _normalize_canton v.canton ∉ zh_aliases := by
    rcases hcases with h | h <;> rw [h] <;> decide
  have h02 : _normalize_canton v.canton ∉ ge_aliases := by
    rcases hcases with h | h <;> rw [h] <;> decide
  have h03 : _normalize_canton v.canton ∉ vd_aliases := by
    rcases hcases with h | h <;> rw [h] <;> decide
  have h04 : _normalize_canton v.canton ∉ ti_aliases := by
    rcases hcases with h | h <;> rw [h] <;> decide
  have h05 : _normalize_canton v.canton ∉ gr_aliases := by
    rcases hcases with h | h <;> rw [h] <;> decide
  have h06 : _normalize_canton v.canton ∉ vs_aliases := by
    rcases hcases with h | h <;> rw [h] <;> decide
  have h07 : _normalize_canton v.canton ∉ be_aliases := by
    rcases hcases with h | h <;> rw [h] <;> decide
  have h08 : _normalize_canton v.canton ∉ bl_aliases := by
    rcases hcases with h | h <;> rw [h] <;> decide
  have h09 : _normalize_canton v.canton ∉ fr_aliases := by
    rcases hcases with h | h <;> rw [h] <;> decide
  have hbranch : aargau_branch v = .error .agPayloadTooSmall := by
    simp only [aargau_branch, hcm, _aargau_annual]
    rw [if_pos hm]
    rfl
  cases hres : resolve_weight v b with
  | none =>
      simp only [canton_truck_tax, canton_dispatch, hres]
      rw [if_pos hag, hbranch]
      rfl
  | some tup =>
      simp only [canton_truck_tax, canton_dispatch, hres]
      rw [if_neg h01, if_neg h02, if_neg h03, if_neg h04, if_neg h05, if_neg h06, if_neg h07,
        if_neg h08, if_neg h09, if_pos hag, hbranch]
      rfl

/-- Aargau input with a 500 kg payload. -/
def ag_in : CantonInput :=
  { canton := "AG", powertrain := "ICEV-d", year := 2015, euro_class := none,
    purchase_year := 2025, resale_year := 2026, kilometers_per_year := 50000,
    size := none, original_class_name := none, power := none,
    cargo_mass := some 500, first_registration_year := none }

/-- Witness for C10 at a concrete Aargau input. -/
theorem claim_C10_witness :
    canton_truck_tax ag_in "midpoint" = .error .agPayloadTooSmall :=
  claim_C10 ag_in "midpoint" 500 (by decide) rfl (by decide)

end SwissCargo
